import Mathlib

/-!
# Remote provisioning over SSH: a shallow embedding

The development embeds the sequencing logic of the Go programs
`ssh_relay_and_remote_control/multi_install.go`,
`ssh_relay_and_remote_control/single_install.go` and
`ssh_capsule_load_and_run/main.go`.

Conventions.
* A Go `string` is a Lean `String`; a Go `error` is the text that `%v` prints
  for it, and `Option String` is a possibly-nil error (`none` is `nil`).
* The environment (local file system, SSH transport) is an oracle keyed by
  the text of the request.  Every function returns, next to its result, the
  list of requests it issued, in order.
* `fmt.Sprintf` with `%s`/`%v` verbs is string concatenation.
-/

namespace GoStd

/-- Go `strings.Contains` on character lists: `sub` occurs in `s` as a
contiguous block. -/
def containsChars (s sub : List Char) : Bool :=
  s.tails.any (fun t => sub.isPrefixOf t)

/-- Go `strings.Contains(s, substr)`. -/
def Contains (s substr : String) : Bool :=
  containsChars s.data substr.data

/-- Go `strings.ToLower`.  ASCII letters are mapped to lower case.  (Go also
lower-cases non-ASCII letters; the programs only compare the result with ASCII
text.) -/
def ToLower (s : String) : String :=
  String.mk (s.data.map Char.toLower)

/-- Go `strings.ReplaceAll(s, old, new)` for a one-character `old`. -/
def ReplaceAllChar (s : String) (old : Char) (new : String) : String :=
  String.mk (s.data.flatMap (fun c => if c = old then new.data else [c]))

/-- The part of `filepath.Base` that drops trailing separators. -/
def stripTrailingSlashes (p : List Char) : List Char :=
  (p.reverse.dropWhile (fun c => c = '/')).reverse

/-- The part of `filepath.Base` that keeps what follows the last separator. -/
def lastElement (p : List Char) : List Char :=
  (p.reverse.takeWhile (fun c => c ≠ '/')).reverse

/-- Go `filepath.Base` (Unix): the last element of the path; `"."` for the
empty path and `"/"` for a path of separators only. -/
def Base (path : String) : String :=
  if path.data = [] then "."
  else
    let e := lastElement (stripTrailingSlashes path.data)
    if e = [] then "/" else String.mk e

/-- The `..` case of `filepath.Clean`, on the reversed output buffer: drop the
last byte, then keep dropping while the buffer is longer than `dotdot` and the
byte just dropped is not a separator. -/
def backtrackRev : List Char → Nat → List Char
  | [], _ => []
  | c :: r, dotdot => if r.length > dotdot ∧ c ≠ '/' then backtrackRev r dotdot else r

/-- The main loop of Go `filepath.Clean` (Unix).  `path` is the unread input,
`out` the output buffer, `dotdot` the index where `..` must stop. -/
def cleanLoop : Nat → List Char → Bool → List Char → Nat → List Char
  | 0, _, _, out, _ => out
  | _ + 1, [], _, out, _ => out
  | fuel + 1, c :: rest, rooted, out, dotdot =>
    if c = '/' then cleanLoop fuel rest rooted out dotdot
    else if c = '.' ∧ (rest = [] ∨ rest.head? = some '/') then
      cleanLoop fuel rest rooted out dotdot
    else if c = '.' ∧ rest.head? = some '.' ∧
        (rest.tail = [] ∨ rest.tail.head? = some '/') then
      if out.length > dotdot then
        cleanLoop fuel rest.tail rooted (backtrackRev out.reverse dotdot).reverse dotdot
      else if rooted then cleanLoop fuel rest.tail rooted out dotdot
      else
        let out2 := (if out.length > 0 then out ++ ['/'] else out) ++ ['.', '.']
        cleanLoop fuel rest.tail rooted out2 out2.length
    else
      let out1 :=
        if (rooted ∧ out.length ≠ 1) ∨ (¬ rooted ∧ out.length ≠ 0) then out ++ ['/'] else out
      cleanLoop fuel ((c :: rest).dropWhile (fun d => d ≠ '/')) rooted
        (out1 ++ (c :: rest).takeWhile (fun d => d ≠ '/')) dotdot

/-- Go `filepath.Clean` (Unix) on character lists. -/
def cleanChars (path : List Char) : List Char :=
  match path with
  | [] => ['.']
  | c :: rest =>
    let rooted : Bool := c = '/'
    let out :=
      if rooted then cleanLoop (rest.length + 1) rest true ['/'] 1
      else cleanLoop (rest.length + 2) (c :: rest) false [] 0
    if out = [] then ['.'] else out

/-- Go `filepath.Clean` (Unix). -/
def Clean (path : String) : String :=
  String.mk (cleanChars path.data)

/-- Go `filepath.Dir` (Unix): everything up to the last separator, cleaned. -/
def Dir (path : String) : String :=
  String.mk (cleanChars (path.data.reverse.dropWhile (fun c => c ≠ '/')).reverse)

/-- Go `filepath.Join` of two elements (Unix): empty elements are ignored and
the result is cleaned. -/
def Join (a b : String) : String :=
  if a.data ≠ [] then Clean (a ++ "/" ++ b)
  else if b.data ≠ [] then Clean b
  else ""

end GoStd

/-! ## Data shared by `multi_install.go` and `single_install.go` -/

/-- The Go struct `Package`: how to build and install one tarball. -/
structure Package where
  URL : String
  Tarball : String
  DirName : String
  Configure : String
  Build : String
  Install : String
  SelfTest : List String
deriving DecidableEq, Repr

/-- Outcome of the local `os.Stat` on the tarball. -/
inductive StatResult where
  | found
  | missing
  | statError (e : String)
deriving DecidableEq, Repr

/-- The environment of one run. -/
structure Oracle where
  /-- Result of `os.Stat(path)`. -/
  stat : String → StatResult
  /-- Result of running `wget -O tarball url`. -/
  wget : String → String → Option String
  /-- Result of `client.NewSession()` for the session that is to carry the
  given command. -/
  newSession : String → Option String
  /-- Result of `os.Open(localPath)`. -/
  openLocal : String → Option String
  /-- Result of `session.Run(cmd)`. -/
  sessionRun : String → Option String

/-- One request issued by the orchestrator. -/
inductive Event where
  /-- A call `os.Stat(tarball)` made by `ensureTarball`. -/
  | stat (tarball : String)
  /-- A download `wget -O tarball url`. -/
  | download (tarball url : String)
  /-- A call `scpFile(client, localPath, remotePath)`. -/
  | upload (localPath remotePath : String)
  /-- A call `runRemote(client, cmd)`. -/
  | run (cmd : String)
deriving DecidableEq, Repr

/-- How `main` ends: it falls off the end of the package loop, or `log.Fatalf`
terminates the process with a message. -/
inductive Outcome where
  | done
  | failed (msg : String)
deriving DecidableEq, Repr

/-- Whether the run ended through `log.Fatalf`. -/
def Outcome.isFailed : Outcome → Bool
  | .done => false
  | .failed _ => true

namespace Install

open GoStd

/-- The function `ensureTarball` (the same text in both installers): download
the tarball if `os.Stat` reports that it does not exist. -/
def ensureTarball (o : Oracle) (pkg : Package) : List Event × Option String :=
  match o.stat pkg.Tarball with
  | .missing => ([.stat pkg.Tarball, .download pkg.Tarball pkg.URL], o.wget pkg.Tarball pkg.URL)
  | _ => ([.stat pkg.Tarball], none)

/-- The return value of `scpFile` (the same text in both installers): the
error of `client.NewSession`, else of `os.Open`, else of
`session.Run("scp -tr <dir of remotePath>")`. -/
def scpFile (o : Oracle) (localPath remotePath : String) : Option String :=
  let cmd := "scp -tr " ++ Dir remotePath
  match o.newSession cmd with
  | some e => some e
  | none =>
    match o.openLocal localPath with
    | some e => some e
    | none => o.sessionRun cmd

/-- The function `runRemote` (the same text in both installers): the error of
`client.NewSession`, else of `session.Run(cmd)`. -/
def runRemote (o : Oracle) (cmd : String) : Option String :=
  match o.newSession cmd with
  | some e => some e
  | none => o.sessionRun cmd

/-- The first four entries of `steps` in `installPackage` (the same text in
both installers): extract, configure, build, install. -/
def baseSteps (remoteTmp : String) (pkg : Package) : List String :=
  [ "cd " ++ remoteTmp ++ " && tar -xzf " ++ Base pkg.Tarball,
    "cd " ++ remoteTmp ++ "/" ++ pkg.DirName ++ " && " ++ pkg.Configure,
    "cd " ++ remoteTmp ++ "/" ++ pkg.DirName ++ " && " ++ pkg.Build,
    "cd " ++ remoteTmp ++ "/" ++ pkg.DirName ++ " && " ++ pkg.Install ]

/-- The loop `for _, c := range steps` of `installPackage` (the same text in
both installers): run the commands in order and return at the first error. -/
def runSteps (o : Oracle) : List String → List Event × Option String
  | [] => ([], none)
  | c :: cs =>
    match runRemote o c with
    | some e => ([.run c], some ("command failed: " ++ c ++ ": " ++ e))
    | none => (.run c :: (runSteps o cs).1, (runSteps o cs).2)

end Install

/-! ## `multi_install.go` -/

namespace MultiInstall

open GoStd Install

/-- The function `chooseSudo` of `multi_install.go`. -/
def chooseSudo (use : Bool) (cmd password : String) : String :=
  if use then "echo '" ++ password ++ "' | sudo -S " ++ cmd else cmd

/-- The test `strings.Contains(strings.ToLower(pkg.Tarball), "openssl")`. -/
def isOpenssl (pkg : Package) : Bool :=
  Contains (ToLower pkg.Tarball) "openssl"

/-- The three commands that `installPackage` appends to `steps` in its
OpenSSL branch. -/
def ldconfigSteps (installDir : String) (useSudo : Bool) (password : String) : List String :=
  [ "if [ -d " ++ installDir ++ "/lib ]; then " ++
      chooseSudo useSudo ("sh -c 'echo " ++ installDir ++ "/lib > /etc/ld.so.conf.d/openssl.conf'")
        password ++ "; fi",
    "if [ -d " ++ installDir ++ "/lib64 ]; then " ++
      chooseSudo useSudo ("sh -c 'echo " ++ installDir ++ "/lib64 >> /etc/ld.so.conf.d/openssl.conf'")
        password ++ "; fi",
    chooseSudo useSudo "ldconfig -v" password ]

/-- The value that `installPackage` assigns to `pkg.SelfTest` in its OpenSSL
branch. -/
def opensslSelfTests (installDir : String) : List String :=
  [ "LD_LIBRARY_PATH=" ++ installDir ++ "/lib:$LD_LIBRARY_PATH " ++ installDir ++
      "/bin/openssl version || echo 'Test 1 failed'",
    "LD_LIBRARY_PATH=" ++ installDir ++ "/lib64:$LD_LIBRARY_PATH " ++ installDir ++
      "/bin/openssl version || echo 'Test 2 failed'",
    installDir ++ "/bin/openssl version || echo 'Test 3 failed'",
    "ls -la " ++ installDir ++ "/lib*/libssl* " ++ installDir ++
      "/lib*/libcrypto* 2>/dev/null || echo 'No SSL libraries found'" ]

/-- The slice `steps` of `installPackage` when its command loop starts. -/
def steps (remoteTmp installDir : String) (useSudo : Bool) (password : String)
    (pkg : Package) : List String :=
  if isOpenssl pkg && useSudo then
    baseSteps remoteTmp pkg ++ ldconfigSteps installDir useSudo password
  else baseSteps remoteTmp pkg

/-- The slice `pkg.SelfTest` of `installPackage` when its self-test loop
starts. -/
def selfTests (installDir : String) (useSudo : Bool) (pkg : Package) : List String :=
  if isOpenssl pkg && useSudo then opensslSelfTests installDir else pkg.SelfTest

/-- The loop `for _, testCmd := range pkg.SelfTest` of `installPackage`: a
failing test is only logged for an OpenSSL tarball and is returned as an error
otherwise. -/
def runSelfTests (o : Oracle) (pkg : Package) : List String → List Event × Option String
  | [] => ([], none)
  | testCmd :: cs =>
    match runRemote o testCmd with
    | some e =>
      if isOpenssl pkg then (.run testCmd :: (runSelfTests o pkg cs).1, (runSelfTests o pkg cs).2)
      else ([.run testCmd], some ("self-test failed: " ++ testCmd ++ ": " ++ e))
    | none => (.run testCmd :: (runSelfTests o pkg cs).1, (runSelfTests o pkg cs).2)

/-- The function `installPackage` of `multi_install.go`: upload, steps,
self-tests. -/
def installPackage (o : Oracle) (remoteTmp installDir : String) (useSudo : Bool)
    (password : String) (pkg : Package) : List Event × Option String :=
  let remoteTar := Join remoteTmp (Base pkg.Tarball)
  match scpFile o pkg.Tarball remoteTar with
  | some e => ([.upload pkg.Tarball remoteTar], some e)
  | none =>
    let s := runSteps o (steps remoteTmp installDir useSudo password pkg)
    match s.2 with
    | some e => (.upload pkg.Tarball remoteTar :: s.1, some e)
    | none =>
      let t := runSelfTests o pkg (selfTests installDir useSudo pkg)
      (.upload pkg.Tarball remoteTar :: (s.1 ++ t.1), t.2)

/-- The body of the loop `for _, pkg := range pkgs` of `main`: the requests
issued for one package and the message of `log.Fatalf`, if it is reached. -/
def processPackage (o : Oracle) (remoteTmp installDir : String) (useSudo : Bool)
    (password : String) (pkg : Package) : List Event × Option String :=
  let f := ensureTarball o pkg
  match f.2 with
  | some e => (f.1, some ("download failed for " ++ pkg.URL ++ ": " ++ e))
  | none =>
    let r := installPackage o remoteTmp installDir useSudo password pkg
    match r.2 with
    | some e => (f.1 ++ r.1, some ("installation failed for " ++ pkg.Tarball ++ ": " ++ e))
    | none => (f.1 ++ r.1, none)

/-- The loop `for _, pkg := range pkgs` of `main`, started at package number
`i`.  Every request is recorded with the number of the package it was issued
for. -/
def mainLoop (o : Oracle) (remoteTmp installDir : String) (useSudo : Bool) (password : String) :
    Nat → List Package → List (Nat × Event) × Outcome
  | _, [] => ([], .done)
  | i, pkg :: rest =>
    let r := processPackage o remoteTmp installDir useSudo password pkg
    match r.2 with
    | some msg => (r.1.map (fun ev => (i, ev)), .failed msg)
    | none =>
      let m := mainLoop o remoteTmp installDir useSudo password (i + 1) rest
      (r.1.map (fun ev => (i, ev)) ++ m.1, m.2)

/-- The slice literal `pkgs` of `main`. -/
def pkgs (installDir : String) (useSudo : Bool) (passwordEnv : String) : List Package :=
  [ { URL := "https://zlib.net/zlib-1.3.1.tar.gz",
      Tarball := "zlib-1.3.1.tar.gz",
      DirName := "zlib-1.3.1",
      Configure := "./configure --prefix=" ++ installDir,
      Build := "make -j$(nproc)",
      Install := chooseSudo useSudo "make install" passwordEnv,
      SelfTest := [chooseSudo useSudo "ldconfig" passwordEnv,
        "ldconfig -p | grep zlib || echo 'zlib not found in ldconfig'"] },
    { URL := "https://www.openssl.org/source/openssl-3.4.2.tar.gz",
      Tarball := "openssl-3.4.2.tar.gz",
      DirName := "openssl-3.4.2",
      Configure := "./config --prefix=" ++ installDir ++ " --openssldir=" ++ installDir ++
        "/ssl enable-legacy shared",
      Build := "make -j$(nproc)",
      Install := chooseSudo useSudo "make install" passwordEnv,
      SelfTest := [] },
    { URL := "https://curl.se/download/curl-8.10.1.tar.gz",
      Tarball := "curl-8.10.1.tar.gz",
      DirName := "curl-8.10.1",
      Configure := "PKG_CONFIG_PATH=" ++ installDir ++
        "/lib/pkgconfig:$PKG_CONFIG_PATH ./configure --prefix=" ++ installDir ++
        " --with-openssl=" ++ installDir,
      Build := "make -j$(nproc)",
      Install := chooseSudo useSudo "make install" passwordEnv,
      SelfTest := ["LD_LIBRARY_PATH=" ++ installDir ++ "/lib:$LD_LIBRARY_PATH " ++ installDir ++
        "/bin/curl --version"] },
    { URL := "https://github.com/vim/vim/archive/refs/tags/v9.1.0000.tar.gz",
      Tarball := "vim-9.1.0000.tar.gz",
      DirName := "vim-9.1.0000",
      Configure := "./configure --prefix=" ++ installDir ++ " --enable-multibyte --enable-cscope",
      Build := "make -j$(nproc)",
      Install := chooseSudo useSudo "make install" passwordEnv,
      SelfTest := [installDir ++ "/bin/vim --version | head -n 3"] } ]

/-- The OpenSSL entry of `pkgs`. -/
def opensslPkg (installDir : String) (useSudo : Bool) (passwordEnv : String) : Package :=
  { URL := "https://www.openssl.org/source/openssl-3.4.2.tar.gz",
    Tarball := "openssl-3.4.2.tar.gz",
    DirName := "openssl-3.4.2",
    Configure := "./config --prefix=" ++ installDir ++ " --openssldir=" ++ installDir ++
      "/ssl enable-legacy shared",
    Build := "make -j$(nproc)",
    Install := chooseSudo useSudo "make install" passwordEnv,
    SelfTest := [] }

end MultiInstall

/-! ## `single_install.go` -/

namespace SingleInstall

open GoStd Install

/-- The function `chooseSudo` of `single_install.go`. -/
def chooseSudo (use : Bool) (cmd password : String) : String :=
  if use then "echo " ++ password ++ " | sudo -S " ++ cmd else cmd

/-- The slice `libPaths` of `installPackage`. -/
def libPaths (installDir : String) : List String :=
  [installDir ++ "/lib", installDir ++ "/lib64"]

/-- The command appended to `steps` for one entry of `libPaths`. -/
def registerStep (useSudo : Bool) (password libPath : String) : String :=
  "[ -d " ++ libPath ++ " ] && " ++
    chooseSudo useSudo ("sh -c 'echo " ++ libPath ++ " > /etc/ld.so.conf.d/openssl.conf'")
      password ++
    " || echo 'Directory " ++ libPath ++ " does not exist'"

/-- The slice `steps` of `installPackage` when its command loop starts. -/
def steps (remoteTmp installDir : String) (useSudo : Bool) (password : String)
    (pkg : Package) : List String :=
  if useSudo then
    baseSteps remoteTmp pkg ++ (libPaths installDir).map (registerStep useSudo password) ++
      [chooseSudo useSudo "ldconfig -v" password]
  else baseSteps remoteTmp pkg

/-- The slice `testApproaches` of `installPackage`. -/
def testApproaches (installDir : String) : List String :=
  [ "LD_LIBRARY_PATH=" ++ installDir ++ "/lib:$LD_LIBRARY_PATH " ++ installDir ++
      "/bin/openssl version",
    "LD_LIBRARY_PATH=" ++ installDir ++ "/lib64:$LD_LIBRARY_PATH " ++ installDir ++
      "/bin/openssl version",
    installDir ++ "/bin/openssl version",
    "ldd " ++ installDir ++ "/bin/openssl" ]

/-- The slice `diagnostics` of `installPackage`. -/
def diagnostics (installDir : String) : List String :=
  [ "ls -la " ++ installDir ++ "/lib*",
    "ls -la " ++ installDir ++ "/bin/openssl",
    "cat /etc/ld.so.conf.d/openssl.conf || echo 'openssl.conf not found'",
    "ldconfig -p | grep ssl || echo 'No ssl libs found in ldconfig'" ]

/-- The loop `for i, testCmd := range testApproaches`: a failing approach
stores its error in `lastErr` and the loop continues; the first approach that
succeeds makes `installPackage` return nil.  The result is the requests, whether
an approach succeeded, and the final `lastErr`. -/
def runTests (o : Oracle) : List String → Option String → List Event × Bool × Option String
  | [], lastErr => ([], false, lastErr)
  | testCmd :: cs, lastErr =>
    match runRemote o testCmd with
    | some e => (.run testCmd :: (runTests o cs (some e)).1, (runTests o cs (some e)).2)
    | none => ([.run testCmd], true, lastErr)

/-- The loop `for _, diagnostic := range diagnostics`: every command is run and
its result is dropped. -/
def runDiagnostics (o : Oracle) : List String → List Event
  | [] => []
  | d :: ds =>
    match runRemote o d with
    | _ => .run d :: runDiagnostics o ds

/-- What `%v` prints for a possibly-nil error. -/
def fmtErr : Option String → String
  | none => "<nil>"
  | some e => e

/-- The function `installPackage` of `single_install.go`. -/
def installPackage (o : Oracle) (remoteTmp : String) (pkg : Package) (useSudo : Bool)
    (password installDir : String) : List Event × Option String :=
  let remoteTar := Join remoteTmp (Base pkg.Tarball)
  match scpFile o pkg.Tarball remoteTar with
  | some e => ([.upload pkg.Tarball remoteTar], some e)
  | none =>
    let s := runSteps o (steps remoteTmp installDir useSudo password pkg)
    match s.2 with
    | some e => (.upload pkg.Tarball remoteTar :: s.1, some e)
    | none =>
      let t := runTests o (testApproaches installDir) none
      if t.2.1 then (.upload pkg.Tarball remoteTar :: (s.1 ++ t.1), none)
      else
        (.upload pkg.Tarball remoteTar ::
            (s.1 ++ t.1 ++ runDiagnostics o (diagnostics installDir)),
          some ("all OpenSSL tests failed, last error: " ++ fmtErr t.2.2))

/-- The body of the loop `for _, pkg := range pkgs` of `main`: the requests
issued for one package and the message of `log.Fatalf`, if it is reached. -/
def processPackage (o : Oracle) (remoteTmp installDir : String) (useSudo : Bool)
    (password : String) (pkg : Package) : List Event × Option String :=
  let f := ensureTarball o pkg
  match f.2 with
  | some e => (f.1, some ("download failed for " ++ pkg.URL ++ ": " ++ e))
  | none =>
    let r := installPackage o remoteTmp pkg useSudo password installDir
    match r.2 with
    | some e => (f.1 ++ r.1, some ("failed installing " ++ pkg.Tarball ++ ": " ++ e))
    | none => (f.1 ++ r.1, none)

end SingleInstall

/-! ## `ssh_capsule_load_and_run/main.go` -/

namespace Capsule

open GoStd

/-- The function `shellQuote`. -/
def shellQuote (s : String) : String :=
  if s = "" then "''"
  else "'" ++ ReplaceAllChar s (Char.ofNat 39) "'\\''" ++ "'"

/-- The bytes of a Go string: its UTF-8 encoding. -/
def bytesOf (s : String) : List UInt8 :=
  s.data.flatMap String.utf8EncodeChar

/-- What `%04o` prints for a non-negative integer: its octal digits, padded on
the left with zeros to a width of at least four. -/
def fmtOctal04 (n : Nat) : String :=
  String.mk (List.replicate (4 - (Nat.toDigits 8 n).length) '0' ++ Nat.toDigits 8 n)

/-- What `%d` prints for a non-negative integer. -/
def fmtDecimal (n : Nat) : String :=
  String.mk (Nat.toDigits 10 n)

/-- The line that `scpUpload` formats with `"C%04o %d %s\n"` from
`mode&0o7777`, `len(data)` and `remoteFile`. -/
def scpHeader (mode len : Nat) (remoteFile : String) : String :=
  "C" ++ fmtOctal04 (mode &&& 0o7777) ++ " " ++ fmtDecimal len ++ " " ++ remoteFile ++ "\n"

/-- The environment of one call of `scpUpload`. -/
structure Session where
  /-- Result of `client.NewSession()`. -/
  newSession : Option String
  /-- Result of `sess.StdinPipe()`. -/
  stdinPipe : Option String
  /-- Result of `sess.Start(cmd)`. -/
  start : String → Option String
  /-- Content of the `stderr` buffer when `sess.Start` has failed. -/
  stderrAtStart : String
  /-- How many bytes the input channel takes from write number `k` (counted
  from zero) of `n` bytes; the write succeeds when all `n` are taken. -/
  accept : Nat → Nat → Nat
  /-- Result of `sess.Wait()`. -/
  wait : Option String
  /-- Content of the `stderr` buffer when `sess.Wait` has failed. -/
  stderrAtWait : String

/-- One `Write(p)` on the input channel as write number `k`: the bytes the
channel takes are appended to what it holds. -/
def Session.write (se : Session) (k : Nat) (buf p : List UInt8) : List UInt8 :=
  buf ++ p.take (se.accept k p.length)

/-- What one call of `scpUpload` did. -/
structure Upload where
  /-- The command handed to `sess.Start`, if it was reached. -/
  command : Option String
  /-- The bytes the session's input channel received, in order. -/
  written : List UInt8
  /-- Whether `stdin.Close()` ran. -/
  closed : Bool
  /-- The returned error. -/
  err : Option String

/-- The goroutine of `scpUpload`: header, payload, terminator; the results of
the three writes are dropped. -/
def producer (se : Session) (data : List UInt8) (mode : Nat) (remoteFile : String) :
    List UInt8 :=
  let b0 := se.write 0 [] (bytesOf (scpHeader mode data.length remoteFile))
  let b1 := se.write 1 b0 data
  se.write 2 b1 [0]

/-- The function `scpUpload`, with its goroutine run to the end before
`sess.Wait` returns. -/
def scpUpload (se : Session) (data : List UInt8) (remotePath : String) (mode : Nat) : Upload :=
  match se.newSession with
  | some e => ⟨none, [], false, some e⟩
  | none =>
    match se.stdinPipe with
    | some e => ⟨none, [], false, some ("stdin pipe: " ++ e)⟩
    | none =>
      let remoteDir := Dir remotePath
      let remoteFile := Base remotePath
      let cmd := "scp -t " ++ shellQuote remoteDir
      match se.start cmd with
      | some e =>
        ⟨some cmd, [], false, some ("start scp: " ++ e ++ " (" ++ se.stderrAtStart ++ ")")⟩
      | none =>
        let w := producer se data mode remoteFile
        match se.wait with
        | some e => ⟨some cmd, w, true, some ("scp wait: " ++ e ++ " (" ++ se.stderrAtWait ++ ")")⟩
        | none => ⟨some cmd, w, true, none⟩

end Capsule

/-! ## Concrete inputs -/

namespace Sample

/-- The zlib entry of `multi_install.go` for prefix `/usr/local`, with sudo and
password `pw`. -/
def zlib : Package :=
  { URL := "https://zlib.net/zlib-1.3.1.tar.gz",
    Tarball := "zlib-1.3.1.tar.gz",
    DirName := "zlib-1.3.1",
    Configure := "./configure --prefix=/usr/local",
    Build := "make -j$(nproc)",
    Install := "echo 'pw' | sudo -S make install",
    SelfTest := ["echo 'pw' | sudo -S ldconfig",
      "ldconfig -p | grep zlib || echo 'zlib not found in ldconfig'"] }

/-- The OpenSSL entry of `multi_install.go` for prefix `/usr/local`, with sudo
and password `pw`. -/
def openssl : Package :=
  { URL := "https://www.openssl.org/source/openssl-3.4.2.tar.gz",
    Tarball := "openssl-3.4.2.tar.gz",
    DirName := "openssl-3.4.2",
    Configure := "./config --prefix=/usr/local --openssldir=/usr/local/ssl enable-legacy shared",
    Build := "make -j$(nproc)",
    Install := "echo 'pw' | sudo -S make install",
    SelfTest := [] }

/-- An environment in which the tarballs are present and every request
succeeds. -/
def allOk : Oracle :=
  { stat := fun _ => .found,
    wget := fun _ _ => none,
    newSession := fun _ => none,
    openLocal := fun _ => none,
    sessionRun := fun _ => none }

/-- An environment in which the tarballs are present and every request
succeeds except running the command `bad`, which exits with status 1. -/
def failingOn (bad : String) : Oracle :=
  { stat := fun _ => .found,
    wget := fun _ _ => none,
    newSession := fun _ => none,
    openLocal := fun _ => none,
    sessionRun := fun c => if c = bad then some "Process exited with status 1" else none }

/-- An environment in which the tarballs are present and every request
succeeds except running a command of the list `bad`, which exits with
status 127. -/
def failingOnAll (bad : List String) : Oracle :=
  { stat := fun _ => .found,
    wget := fun _ _ => none,
    newSession := fun _ => none,
    openLocal := fun _ => none,
    sessionRun := fun c => if c ∈ bad then some "Process exited with status 127" else none }

/-- A session of `scpUpload` in which every transport call succeeds and every
write is taken in full. -/
def session : Capsule.Session :=
  { newSession := none,
    stdinPipe := none,
    start := fun _ => none,
    stderrAtStart := "",
    accept := fun _ n => n,
    wait := none,
    stderrAtWait := "" }

end Sample

/-! ## Traces used to state the properties -/

/-- Whether a request goes to the remote host (an upload or a command) rather
than to the local file system. -/
def Event.isRemote : Event → Bool
  | .upload _ _ => true
  | .run _ => true
  | _ => false

/-- The local tarball named by an upload request. -/
def Event.uploaded : Event → Option String
  | .upload l _ => some l
  | _ => none

/-- Mark every request of a list with the number of the package it belongs
to. -/
def tagWith (i : Nat) (evs : List Event) : List (Nat × Event) :=
  evs.map (fun ev => (i, ev))

namespace MultiInstall

open GoStd Install

/-- The remote requests of one package when nothing fails: the upload, the
steps in order, the self-tests in order. -/
def remoteTrace (remoteTmp installDir : String) (useSudo : Bool) (password : String)
    (pkg : Package) : List Event :=
  .upload pkg.Tarball (Join remoteTmp (Base pkg.Tarball)) ::
    ((steps remoteTmp installDir useSudo password pkg).map Event.run ++
      (selfTests installDir useSudo pkg).map Event.run)

/-- All requests of one package when nothing fails: the local tarball check
(with its download, if any), then the remote requests. -/
def packageTrace (o : Oracle) (remoteTmp installDir : String) (useSudo : Bool)
    (password : String) (pkg : Package) : List Event :=
  (ensureTarball o pkg).1 ++ remoteTrace remoteTmp installDir useSudo password pkg

end MultiInstall

/-! ## The upload of `multi_install.go`, byte by byte -/

namespace Install

open GoStd

/-- The environment of the goroutine that `scpFile` starts. -/
structure Channel where
  /-- Result of `session.StdinPipe()`. -/
  stdinPipe : Option String
  /-- How many bytes the input channel takes from write number `k` (counted
  from zero) of `n` bytes; the write succeeds when all `n` are taken.  Write 0
  is the header, write 1 stands for the writes of `io.Copy`, which stop at the
  first one that fails, write 2 is the terminator. -/
  accept : Nat → Nat → Nat
  /-- Content of the local file. -/
  content : String → List UInt8

/-- One write on the input channel as write number `k`: the bytes the channel
takes are appended to what it holds. -/
def Channel.write (ch : Channel) (k : Nat) (buf p : List UInt8) : List UInt8 :=
  buf ++ p.take (ch.accept k p.length)

/-- How a call of `scpFile` ends: it returns an error value, or the goroutine
panics on the nil writer that a failed `StdinPipe` leaves behind. -/
inductive UploadEnd where
  | returned (err : Option String)
  | crashed
deriving DecidableEq, Repr

/-- What one call of `scpFile` did. -/
structure Transfer where
  /-- The bytes the session's input channel received, in order. -/
  written : List UInt8
  /-- Whether `w.Close()` ran. -/
  closed : Bool
  /-- How the call ended. -/
  ending : UploadEnd

/-- The line that `scpFile` formats with `"C0644 %d %s\n"` from `info.Size()`
and the base name of `localPath`. -/
def scpFileHeader (size : Nat) (localPath : String) : String :=
  "C0644 " ++ Nat.repr size ++ " " ++ Base localPath ++ "\n"

/-- The writes of the goroutine of `scpFile` once it has a writer: header,
file content, terminator; the results of the writes are dropped. -/
def producer (ch : Channel) (localPath : String) : List UInt8 :=
  let data := ch.content localPath
  let b0 := ch.write 0 [] (Capsule.bytesOf (scpFileHeader data.length localPath))
  let b1 := ch.write 1 b0 data
  ch.write 2 b1 [0]

/-- The function `scpFile` with its goroutine, run to the end before
`session.Run` returns. -/
def scpFileTransfer (o : Oracle) (ch : Channel) (localPath remotePath : String) : Transfer :=
  let cmd := "scp -tr " ++ Dir remotePath
  match o.newSession cmd with
  | some e => ⟨[], false, .returned (some e)⟩
  | none =>
    match o.openLocal localPath with
    | some e => ⟨[], false, .returned (some e)⟩
    | none =>
      match ch.stdinPipe with
      | some _ => ⟨[], false, .crashed⟩
      | none => ⟨producer ch localPath, true, .returned (o.sessionRun cmd)⟩

/-! ## The local file system of `ensureTarball` -/

/-- The local file system as `ensureTarball` sees it. -/
structure LocalFS where
  /-- The paths of the files that exist. -/
  files : List String
  /-- The error of `os.Stat(path)` when the check fails for a reason other than
  the file not existing. -/
  statFails : String → Option String
  /-- Result of running `wget -O tarball url`. -/
  wget : String → String → Option String

/-- Result of `os.Stat(path)` on the file system. -/
def LocalFS.stat (fs : LocalFS) (path : String) : StatResult :=
  match fs.statFails path with
  | some e => .statError e
  | none => if path ∈ fs.files then .found else .missing

/-- The function `ensureTarball` on a file system in which a successful
download creates the tarball (a failed one is taken to leave the files as they
were).  The result is the file system afterwards, the requests and the
returned error. -/
def ensureTarballFS (fs : LocalFS) (pkg : Package) : LocalFS × List Event × Option String :=
  match fs.stat pkg.Tarball with
  | .missing =>
    match fs.wget pkg.Tarball pkg.URL with
    | none =>
      ({ fs with files := pkg.Tarball :: fs.files },
        [.stat pkg.Tarball, .download pkg.Tarball pkg.URL], none)
    | some e => (fs, [.stat pkg.Tarball, .download pkg.Tarball pkg.URL], some e)
  | _ => (fs, [.stat pkg.Tarball], none)

/-- The number of download requests in a trace. -/
def downloads (evs : List Event) : Nat :=
  (evs.filter (fun ev => match ev with
    | .download _ _ => true
    | _ => false)).length

/-- The oracle that answers the local requests from a file system and the
remote ones from `o`. -/
def LocalFS.toOracle (fs : LocalFS) (o : Oracle) : Oracle :=
  { o with stat := fs.stat, wget := fs.wget }

end Install

/-! ## Shell quoting -/

namespace Shell

/-- The single-quote character. -/
def quote : Char := Char.ofNat 39

/-- The backslash character. -/
def backslash : Char := Char.ofNat 92

/-- Characters that end a word when they are not quoted: blanks and the
operator characters of the shell. -/
def isDelimiter (c : Char) : Bool :=
  c = ' ' || c = '\t' || c = '\n' || c = '|' || c = '&' || c = ';' || c = '<' || c = '>' ||
    c = '(' || c = ')'

/-- Characters that start another kind of quoting or an expansion when they
are not quoted: double quote, dollar, backquote. -/
def isExpansion (c : Char) : Bool :=
  c = Char.ofNat 34 || c = '$' || c = Char.ofNat 96

/-- Where the reader of a word stands: outside quotes, inside single quotes,
or right after an unquoted backslash. -/
inductive Mode where
  | plain
  | quoted
  | escaped
deriving DecidableEq, Repr

/-- Read one word under the POSIX quoting rules for single quotes and
backslash: inside single quotes every character is literal up to the closing
quote; outside, a backslash makes the next character literal, an unquoted
delimiter ends the word, and a quote that is never closed, a backslash at the
end, or an unquoted double quote, dollar or backquote make the reading fail.
The result is the value of the word and the unread rest. -/
def readWord : Mode → List Char → List Char → Option (List Char × List Char)
  | .plain, acc, [] => some (acc, [])
  | .quoted, _, [] => none
  | .escaped, _, [] => none
  | .quoted, acc, c :: cs =>
    if c = quote then readWord .plain acc cs else readWord .quoted (acc ++ [c]) cs
  | .escaped, acc, c :: cs => readWord .plain (acc ++ [c]) cs
  | .plain, acc, c :: cs =>
    if c = quote then readWord .quoted acc cs
    else if c = backslash then readWord .escaped acc cs
    else if isDelimiter c then some (acc, c :: cs)
    else if isExpansion c then none
    else readWord .plain (acc ++ [c]) cs

/-- The word at the start of a text, and the rest of the text. -/
def parseWord (s : String) : Option (String × String) :=
  (readWord .plain [] s.data).map (fun r => (String.mk r.1, String.mk r.2))

/-- The argument of `echo` in a command that starts with `echo` and a space,
and what follows the argument. -/
def echoArgument (cmd : String) : Option (String × String) :=
  if "echo ".data.isPrefixOf cmd.data then parseWord (String.mk (cmd.data.drop 5)) else none

/-- Split a text at every space. -/
def splitSpaces : List Char → List (List Char)
  | [] => [[]]
  | c :: cs =>
    match splitSpaces cs with
    | [] => [[c]]
    | w :: ws => if c = ' ' then [] :: w :: ws else (c :: w) :: ws

/-- The space-separated pieces of a command. -/
def pieces (cmd : String) : List String :=
  (splitSpaces cmd.data).map String.mk

/-- What stands before the first single quote of a text. -/
def beforeQuote (s : String) : String :=
  String.mk (s.data.takeWhile (fun c => c ≠ quote))

/-- The directory tested by the `[ -d <dir> ]` of a command: the piece after
`-d`. -/
def guardDir (cmd : String) : Option String :=
  match (pieces cmd).dropWhile (fun w => w ≠ "-d") with
  | _ :: d :: _ => some d
  | _ => none

/-- The redirection of the `sh -c 'echo <text> <op> <file>'` inside a command:
the text, whether `<op>` is `>>` (append) rather than `>` (truncate), and the
file. -/
def redirection (cmd : String) : Option (String × Bool × String) :=
  match (pieces cmd).dropWhile (fun w => w ≠ "'echo") with
  | _ :: text :: op :: file :: _ =>
    if op = ">" then some (text, false, beforeQuote file)
    else if op = ">>" then some (text, true, beforeQuote file)
    else none
  | _ => none

/-- The lines of `conf` after a registration command has run: if the tested
directory exists and the command redirects into `conf`, `>` replaces the lines
by the echoed text and `>>` adds the text as a last line; otherwise nothing
changes. -/
def runRegistration (dirs : List String) (conf : String) (lines : List String)
    (cmd : String) : List String :=
  match guardDir cmd, redirection cmd with
  | some d, some (text, append, file) =>
    if d ∈ dirs ∧ file = conf then (if append then lines ++ [text] else [text]) else lines
  | _, _ => lines

/-- The lines of `conf` after the commands have run in order. -/
def runRegistrations (dirs : List String) (conf : String) (lines : List String)
    (cmds : List String) : List String :=
  cmds.foldl (runRegistration dirs conf) lines

end Shell

/-! ## `parseUserHost` (the same text in `main.go`, `remote_key_manager.go`,
`basic/remote_agent_upload_and_run_shamir_split.go` and
`structured/ssh-demo/main.go`) -/

namespace Demo

/-- The loop of `parseUserHost`: `pre` is what has been scanned, the list is
what is left; the scan stops at the first `@`.  (Go scans bytes; in UTF-8 text
the byte of `@` occurs only as the character `@`, so scanning characters gives
the same split.) -/
def scanUserHost : List Char → List Char → Option (List Char × List Char)
  | _, [] => none
  | pre, c :: cs => if c = '@' then some (pre, cs) else scanUserHost (pre ++ [c]) cs

/-- The function `parseUserHost`: the pair `(s[:i], s[i+1:])` for the first
index `i` that holds `@`, or the message of `log.Fatalf`. -/
def parseUserHost (s : String) : Except String (String × String) :=
  match scanUserHost [] s.data with
  | some (u, h) => .ok (String.mk u, String.mk h)
  | none => .error ("Invalid SSH_HOST format: " ++ s)

end Demo

/-! ## `structured/ssh-demo/lib/remote_exec.go` -/

namespace Lib

/-- How `session.Run(cmd)` ends: nil, an `*ssh.ExitError` with an exit status,
or another error. -/
inductive RunOutcome where
  | success
  | exitError (status : Int)
  | otherError (e : String)
deriving DecidableEq, Repr

/-- The environment of one call of `RunRemoteCommand`. -/
structure Transport where
  /-- Result of `client.NewSession()`. -/
  newSession : Option String
  /-- Result of `session.Run(cmd)`. -/
  run : String → RunOutcome
  /-- Content of the `stdout` buffer after the run. -/
  stdout : String → String
  /-- Content of the `stderr` buffer after the run. -/
  stderr : String → String

/-- The function `RunRemoteCommand`: exit code, stdout, stderr, error. -/
def RunRemoteCommand (t : Transport) (cmd : String) : Int × String × String × Option String :=
  match t.newSession with
  | some e => (-1, "", "", some ("new session: " ++ e))
  | none =>
    match t.run cmd with
    | .success => (0, t.stdout cmd, t.stderr cmd, none)
    | .exitError status => (status, t.stdout cmd, t.stderr cmd, none)
    | .otherError e => (-1, "", "", some ("run: " ++ e))

end Lib

/-! ## The payload loop of `ssh_capsule_load_and_run/main.go` -/

namespace GoStd

/-- Go `unicode.IsSpace`. -/
def isSpace (c : Char) : Bool :=
  c.toNat ∈ [9, 10, 11, 12, 13, 32, 0x85, 0xA0, 0x1680, 0x2028, 0x2029, 0x202f, 0x205f, 0x3000] ||
    (0x2000 ≤ c.toNat && c.toNat ≤ 0x200a)

/-- Go `strings.TrimSpace`: the text without its leading and trailing white
space. -/
def TrimSpace (s : String) : String :=
  String.mk ((s.data.dropWhile isSpace).reverse.dropWhile isSpace).reverse

end GoStd

namespace Capsule

open GoStd

/-- The remote side of one payload of `main`. -/
structure Remote where
  /-- The session that `scpUpload` gets for a remote path. -/
  uploadSession : String → Session
  /-- Result of `client.NewSession()` in `run`, for the command to be run. -/
  newSession : String → Option String
  /-- Result of `sess.Run(cmd)` in `run`. -/
  sessionRun : String → Option String
  /-- Content of the `stdout` buffer after the run. -/
  stdout : String → String
  /-- Content of the `stderr` buffer after the run. -/
  stderr : String → String

/-- The function `run`: the output and the error. -/
def run (r : Remote) (cmd : String) : String × Option String :=
  match r.newSession cmd with
  | some e => ("", some e)
  | none =>
    match r.sessionRun cmd with
    | some e => (r.stdout cmd ++ r.stderr cmd, some ("remote cmd error: " ++ e))
    | none => (r.stdout cmd, none)

/-- What the body of the payload loop did for one payload. -/
structure PayloadRun where
  /-- The uploads and commands, in order. -/
  requests : List Event
  /-- The lines written with `log.Printf`, in order. -/
  logs : List String
  /-- The message of `log.Fatalf`, if it was reached. -/
  fatal : Option String

/-- The install command of the payload loop: `install` under sudo, or `mv` and
`chmod`. -/
def installCmd (useSudo : Bool) (password tmpPath installPath : String) : String :=
  if useSudo then
    "echo " ++ shellQuote password ++ " | sudo -S install -m 0755 -o root -g root " ++
      shellQuote tmpPath ++ " " ++ shellQuote installPath
  else
    "mv " ++ shellQuote tmpPath ++ " " ++ shellQuote installPath ++ " && chmod 0755 " ++
      shellQuote installPath

/-- The checksum command of the payload loop. -/
def chkCmd (installPath : String) : String :=
  "sha256sum " ++ shellQuote installPath ++ " || shasum -a 256 " ++ shellQuote installPath ++
    " || openssl dgst -sha256 " ++ shellQuote installPath

/-- The self-test command of the payload loop. -/
def testCmd (installPath selfTest : String) : String :=
  shellQuote installPath ++ " " ++ selfTest

/-- The body of the payload loop of `main` for a payload `name` with bytes
`data`, from the upload on; `localSHA` is the text that `%x` prints for
`sha256.Sum256(data)`. -/
def processPayload (r : Remote) (remoteTmp installDir : String) (useSudo : Bool)
    (password selfTest name : String) (data : List UInt8) (localSHA : String) : PayloadRun :=
  let tmpPath := Join remoteTmp name
  let installPath := Join installDir name
  match (scpUpload (r.uploadSession tmpPath) data tmpPath 0o755).err with
  | some e => ⟨[.upload name tmpPath], [], some ("scp upload " ++ name ++ ": " ++ e)⟩
  | none =>
    let log1 := "uploaded " ++ name ++ " to " ++ tmpPath ++ " (" ++ Nat.repr data.length ++
      " bytes)"
    let ins := run r (installCmd useSudo password tmpPath installPath)
    match ins.2 with
    | some e =>
      ⟨[.upload name tmpPath, .run (installCmd useSudo password tmpPath installPath)], [log1],
        some ((if useSudo then "install " else "move ") ++ name ++ " failed: " ++ e ++ "\n" ++
          ins.1)⟩
    | none =>
      let log2 := "installed " ++ name ++ " to " ++ installPath
      let chk := run r (chkCmd installPath)
      let log3 :=
        match chk.2 with
        | none => ["remote checksum for " ++ name ++ ":\n" ++ TrimSpace chk.1]
        | some _ => []
      let log4 := "local  checksum for " ++ name ++ ": " ++ localSHA
      let tst := run r (testCmd installPath selfTest)
      ⟨[.upload name tmpPath, .run (installCmd useSudo password tmpPath installPath),
          .run (chkCmd installPath), .run (testCmd installPath selfTest)],
        [log1, log2] ++ log3 ++ [log4],
        match tst.2 with
        | some e => some ("self-test " ++ name ++ " failed: " ++ e ++ "\n" ++ tst.1)
        | none => none⟩

end Capsule

namespace Sample

/-- An input channel that takes no byte of any write, with a one-byte local
file. -/
def deafChannel : Install.Channel :=
  { stdinPipe := none,
    accept := fun _ _ => 0,
    content := fun _ => [7] }

/-- An input channel that takes every write in full, with a three-byte local
file. -/
def goodChannel : Install.Channel :=
  { stdinPipe := none,
    accept := fun _ n => n,
    content := fun _ => [1, 2, 3] }

/-- A local file system without files in which every download succeeds. -/
def emptyFS : Install.LocalFS :=
  { files := [],
    statFails := fun _ => none,
    wget := fun _ _ => none }

/-- A local file system without files in which the status check of every path
fails with a symbolic-link loop. -/
def loopFS : Install.LocalFS :=
  { files := [],
    statFails := fun p => some ("stat " ++ p ++ ": too many levels of symbolic links"),
    wget := fun _ _ => none }

/-- The SHA-256 of the empty byte sequence, in hexadecimal. -/
def sha256Empty : String :=
  "e3b0c44298fc1c149afbf4c8996fb92427ae41e4649b934ca495991b7852b855"

/-- A remote side on which everything succeeds and the checksum tools report
a digest of zeros for every file. -/
def wrongDigest : Capsule.Remote :=
  { uploadSession := fun _ => session,
    newSession := fun _ => none,
    sessionRun := fun _ => none,
    stdout := fun c =>
      if "sha256sum ".data.isPrefixOf c.data then
        "0000000000000000000000000000000000000000000000000000000000000000  /usr/local/bin/empty\n"
      else "",
    stderr := fun _ => "" }

/-- A remote side on which everything succeeds except the checksum command,
for which no tool is found. -/
def noDigest : Capsule.Remote :=
  { uploadSession := fun _ => session,
    newSession := fun _ => none,
    sessionRun := fun c =>
      if "sha256sum ".data.isPrefixOf c.data then some "Process exited with status 127" else none,
    stdout := fun _ => "",
    stderr := fun _ => "" }

end Sample

namespace Sample

/-- An environment in which the status check and the opening of every local
path fail with a symbolic-link loop, and every remote request succeeds. -/
def loopOracle : Oracle :=
  { stat := loopFS.stat,
    wget := loopFS.wget,
    newSession := fun _ => none,
    openLocal := fun p => some ("open " ++ p ++ ": too many levels of symbolic links"),
    sessionRun := fun _ => none }

end Sample

/-! ## `structured/ssh-demo/lib/monitor.go` -/

namespace Lib

open GoStd

/-- What `%d` prints for an `int`. -/
def fmtInt : Int → String
  | Int.ofNat n => Nat.repr n
  | Int.negSucc n => "-" ++ Nat.repr (n + 1)

/-- The slice `parts` of `CollectBasicStats`: title and command. -/
def parts : List (String × String) :=
  [ ("uname -a", "uname -a"),
    ("uptime", "uptime"),
    ("cpu/mem", "cat /proc/meminfo 2>/dev/null | head -n 5 || vm_stat"),
    ("disk", "df -h | sed -n '1p;/^[^F]/p'") ]

/-- What one round of the loop of `CollectBasicStats` appends to the builder:
the title line with the exit code, the trimmed stderr if the error is non-nil
and stderr is not empty, and the trimmed stdout. -/
def reportPart (t : Transport) (title cmd : String) : String :=
  let r := RunRemoteCommand t cmd
  "\n# " ++ title ++ " (exit " ++ fmtInt r.1 ++ ")\n" ++
    (if r.2.2.2 ≠ none ∧ r.2.2.1 ≠ "" then TrimSpace r.2.2.1 ++ "\n" else "") ++
    (TrimSpace r.2.1 ++ "\n")

/-- The function `CollectBasicStats`: the report and the error.  `env cmd` is
the transport as it is when `cmd` is run. -/
def CollectBasicStats (env : String → Transport) : String × Option String :=
  (parts.foldl (fun b p => b ++ reportPart (env p.2) p.1 p.2) "=== remote system report ===\n",
    none)

end Lib

namespace Sample

/-- An environment in which the tarballs are present and every request
succeeds except the first two test approaches of `single_install.go` for the
prefix `/usr/local`. -/
def thirdApproachWorks : Oracle :=
  failingOnAll ((SingleInstall.testApproaches "/usr/local").take 2)

/-- A transport on which `uptime` exits with status 1 and prints to both
streams, `df` cannot be run, and the other commands succeed. -/
def monitorEnv : String → Lib.Transport :=
  fun _ =>
    { newSession := none,
      run := fun c =>
        if c = "uptime" then Lib.RunOutcome.exitError 1
        else if "df ".data.isPrefixOf c.data then Lib.RunOutcome.otherError "EOF"
        else Lib.RunOutcome.success,
      stdout := fun c => " out of " ++ c ++ "\n",
      stderr := fun c => "err of " ++ c ++ "\n" }

end Sample


/-! ## Pipelines -/

namespace Shell

/-- Drop the blanks at the start of a text. -/
def skipBlanks (cs : List Char) : List Char :=
  cs.dropWhile (fun c => c = ' ' || c = '\t')

/-- The words of the simple command at the start of a text, read with
`readWord`, and the unread rest, which is empty or starts with an operator
character.  The number bounds the count of words. -/
def readWords : Nat → List Char → Option (List (List Char) × List Char)
  | 0, _ => none
  | fuel + 1, cs =>
    match skipBlanks cs with
    | [] => some ([], [])
    | c :: rest =>
      if isDelimiter c then some ([], c :: rest)
      else
        match readWord .plain [] (c :: rest) with
        | none => none
        | some (w, rest2) =>
          match readWords fuel rest2 with
          | none => none
          | some (ws, r) => some (w :: ws, r)

/-- The commands of a pipeline, each as its list of words (the command name
first, then its arguments): simple commands separated by a single `|`.  The
reading fails on a word that fails to read and on any other operator.  The
number bounds the count of commands. -/
def readPipeline : Nat → List Char → Option (List (List String))
  | 0, _ => none
  | fuel + 1, cs =>
    match readWords (cs.length + 1) cs with
    | none => none
    | some (ws, []) => some [ws.map String.mk]
    | some (ws, c :: rest) =>
      if c = '|' ∧ rest.head? ≠ some '|' then
        (readPipeline fuel rest).map (fun stages => ws.map String.mk :: stages)
      else none

/-- The commands of the pipeline that a command line is, each as its list of
words. -/
def pipeline (cmd : String) : Option (List (List String)) :=
  readPipeline (cmd.data.length + 1) cmd.data

/-- The arguments handed to `sudo` by the commands of a pipeline: the words
after the command name of every command whose name is `sudo`. -/
def sudoArguments (stages : List (List String)) : List String :=
  stages.flatMap (fun ws => if ws.head? = some "sudo" then ws.drop 1 else [])

end Shell

/-! ## Lemmas on the command loops -/

namespace Install

/-- When every command succeeds, the step loop runs all of them in order and
returns nil. -/
theorem runSteps_of_all_ok (o : Oracle) (cs : List String)
    (h : ∀ c ∈ cs, runRemote o c = none) :
    runSteps o cs = (cs.map Event.run, none) := by
  induction cs with
  | nil => rfl
  | cons c cs ih =>
    have hc : runRemote o c = none := h c (List.mem_cons_self c cs)
    have ht := ih (fun x hx => h x (List.mem_cons_of_mem c hx))
    simp [runSteps, hc, ht]

/-- The step loop stops at the first failing command. -/
theorem runSteps_of_first_failure (o : Oracle) (pre post : List String) (c e : String)
    (hpre : ∀ x ∈ pre, runRemote o x = none) (hc : runRemote o c = some e) :
    runSteps o (pre ++ c :: post) =
      ((pre ++ [c]).map Event.run, some ("command failed: " ++ c ++ ": " ++ e)) := by
  induction pre with
  | nil => simp [runSteps, hc]
  | cons x pre ih =>
    have hx : runRemote o x = none := hpre x (List.mem_cons_self x pre)
    have ht := ih (fun y hy => hpre y (List.mem_cons_of_mem x hy))
    simp [runSteps, hx, ht]

end Install

namespace MultiInstall

open GoStd Install

/-- When every self-test succeeds, the self-test loop runs all of them in order
and returns nil. -/
theorem runSelfTests_of_all_ok (o : Oracle) (pkg : Package) (cs : List String)
    (h : ∀ c ∈ cs, runRemote o c = none) :
    runSelfTests o pkg cs = (cs.map Event.run, none) := by
  induction cs with
  | nil => rfl
  | cons c cs ih =>
    have hc : runRemote o c = none := h c (List.mem_cons_self c cs)
    have ht := ih (fun x hx => h x (List.mem_cons_of_mem c hx))
    simp [runSelfTests, hc, ht]

/-- For an OpenSSL tarball the self-test loop runs every command and returns
nil, whatever the commands report. -/
theorem runSelfTests_of_openssl (o : Oracle) (pkg : Package) (cs : List String)
    (h : isOpenssl pkg = true) :
    runSelfTests o pkg cs = (cs.map Event.run, none) := by
  induction cs with
  | nil => rfl
  | cons c cs ih =>
    cases hc : runRemote o c with
    | none => simp [runSelfTests, hc, ih]
    | some e => simp [runSelfTests, hc, ih, h]

/-- For any other tarball the self-test loop stops at the first failing
command. -/
theorem runSelfTests_of_first_failure (o : Oracle) (pkg : Package) (pre post : List String)
    (c e : String) (hstrict : isOpenssl pkg = false)
    (hpre : ∀ x ∈ pre, runRemote o x = none) (hc : runRemote o c = some e) :
    runSelfTests o pkg (pre ++ c :: post) =
      ((pre ++ [c]).map Event.run, some ("self-test failed: " ++ c ++ ": " ++ e)) := by
  induction pre with
  | nil => simp [runSelfTests, hc, hstrict]
  | cons x pre ih =>
    have hx : runRemote o x = none := hpre x (List.mem_cons_self x pre)
    have ht := ih (fun y hy => hpre y (List.mem_cons_of_mem x hy))
    simp [runSelfTests, hx, ht]

end MultiInstall

/-! ## The package loop of `multi_install.go` -/

namespace MultiInstall

open GoStd Install

/-- The local tarball check issues no remote request. -/
theorem ensureTarball_filter_isRemote (o : Oracle) (pkg : Package) :
    (ensureTarball o pkg).1.filter Event.isRemote = [] := by
  unfold ensureTarball
  cases o.stat pkg.Tarball <;> simp [Event.isRemote]

/-- Every entry of `remoteTrace` is a remote request. -/
theorem remoteTrace_filter_isRemote (remoteTmp installDir : String) (useSudo : Bool)
    (password : String) (pkg : Package) :
    (remoteTrace remoteTmp installDir useSudo password pkg).filter Event.isRemote =
      remoteTrace remoteTmp installDir useSudo password pkg := by
  apply List.filter_eq_self.2
  intro ev hev
  simp only [remoteTrace, List.mem_cons, List.mem_append, List.mem_map] at hev
  rcases hev with rfl | ⟨c, -, rfl⟩ | ⟨c, -, rfl⟩ <;> rfl

/-- The only upload request of `packageTrace` is the one for the tarball. -/
theorem packageTrace_uploaded (o : Oracle) (remoteTmp installDir : String) (useSudo : Bool)
    (password : String) (pkg : Package) :
    (packageTrace o remoteTmp installDir useSudo password pkg).filterMap Event.uploaded =
      [pkg.Tarball] := by
  have h1 : (ensureTarball o pkg).1.filterMap Event.uploaded = [] := by
    unfold ensureTarball
    cases o.stat pkg.Tarball <;> simp [Event.uploaded]
  have h2 : ∀ cs : List String, (cs.map Event.run).filterMap Event.uploaded = [] := by
    intro cs
    induction cs with
    | nil => rfl
    | cons c cs ih => simp [Event.uploaded]
  simp [packageTrace, remoteTrace, List.filterMap_append, h1, h2, Event.uploaded]

/-- When nothing fails, `installPackage` issues exactly `remoteTrace` and
returns nil. -/
theorem installPackage_of_all_ok (o : Oracle) (remoteTmp installDir : String) (useSudo : Bool)
    (password : String) (pkg : Package)
    (hup : scpFile o pkg.Tarball (Join remoteTmp (Base pkg.Tarball)) = none)
    (hsteps : ∀ c ∈ steps remoteTmp installDir useSudo password pkg, runRemote o c = none)
    (htests : ∀ c ∈ selfTests installDir useSudo pkg, runRemote o c = none) :
    installPackage o remoteTmp installDir useSudo password pkg =
      (remoteTrace remoteTmp installDir useSudo password pkg, none) := by
  simp [installPackage, hup, runSteps_of_all_ok o _ hsteps,
    runSelfTests_of_all_ok o pkg _ htests, remoteTrace]

/-- When nothing fails, the loop body issues exactly `packageTrace` and does
not reach `log.Fatalf`. -/
theorem processPackage_of_all_ok (o : Oracle) (remoteTmp installDir : String) (useSudo : Bool)
    (password : String) (pkg : Package)
    (hfetch : (ensureTarball o pkg).2 = none)
    (hup : scpFile o pkg.Tarball (Join remoteTmp (Base pkg.Tarball)) = none)
    (hsteps : ∀ c ∈ steps remoteTmp installDir useSudo password pkg, runRemote o c = none)
    (htests : ∀ c ∈ selfTests installDir useSudo pkg, runRemote o c = none) :
    processPackage o remoteTmp installDir useSudo password pkg =
      (packageTrace o remoteTmp installDir useSudo password pkg, none) := by
  simp [processPackage, hfetch,
    installPackage_of_all_ok o remoteTmp installDir useSudo password pkg hup hsteps htests,
    packageTrace]

/-- Requests marked package by package, starting at number `i`, carry numbers
that are at least `i` and never decrease along the list. -/
theorem tagged_indices_sorted (f : Package → List Event) (ps : List Package) (i : Nat) :
    (∀ x ∈ (ps.enumFrom i).flatMap (fun ip => tagWith ip.1 (f ip.2)), i ≤ x.1) ∧
      (((ps.enumFrom i).flatMap (fun ip => tagWith ip.1 (f ip.2))).map Prod.fst).Pairwise
        (fun a b => a ≤ b) := by
  induction ps generalizing i with
  | nil => simp
  | cons p ps ih =>
    obtain ⟨hge, hsorted⟩ := ih (i + 1)
    constructor
    · intro x hx
      simp only [List.enumFrom_cons, List.flatMap_cons, List.mem_append] at hx
      rcases hx with hx | hx
      · simp only [tagWith, List.mem_map] at hx
        obtain ⟨ev, -, rfl⟩ := hx
        exact le_refl i
      · exact Nat.le_of_succ_le (hge x hx)
    · simp only [List.enumFrom_cons, List.flatMap_cons, List.map_append]
      rw [List.pairwise_append]
      refine ⟨?_, hsorted, ?_⟩
      · simp only [tagWith, List.map_map]
        rw [List.pairwise_map]
        exact List.pairwise_of_forall (fun _ _ => le_refl i)
      · intro a ha b hb
        simp only [tagWith, List.map_map, List.mem_map, Function.comp] at ha
        obtain ⟨ev, -, rfl⟩ := ha
        simp only [List.mem_map] at hb
        obtain ⟨x, hx, rfl⟩ := hb
        exact Nat.le_of_succ_le (hge x hx)

/-- When nothing fails, the loop started at package number `i` ends normally
and its trace is the package traces one after the other. -/
theorem mainLoop_of_all_ok (o : Oracle) (remoteTmp installDir : String) (useSudo : Bool)
    (password : String) (ps : List Package) (i : Nat)
    (hfetch : ∀ p ∈ ps, (ensureTarball o p).2 = none)
    (hup : ∀ p ∈ ps, scpFile o p.Tarball (Join remoteTmp (Base p.Tarball)) = none)
    (hsteps : ∀ p ∈ ps, ∀ c ∈ steps remoteTmp installDir useSudo password p,
      runRemote o c = none)
    (htests : ∀ p ∈ ps, ∀ c ∈ selfTests installDir useSudo p, runRemote o c = none) :
    mainLoop o remoteTmp installDir useSudo password i ps =
      ((ps.enumFrom i).flatMap
        (fun ip => tagWith ip.1 (packageTrace o remoteTmp installDir useSudo password ip.2)),
        Outcome.done) := by
  induction ps generalizing i with
  | nil => rfl
  | cons p ps ih =>
    have hp := processPackage_of_all_ok o remoteTmp installDir useSudo password p
      (hfetch p (List.mem_cons_self p ps)) (hup p (List.mem_cons_self p ps))
      (hsteps p (List.mem_cons_self p ps)) (htests p (List.mem_cons_self p ps))
    have ht := ih (i + 1) (fun q hq => hfetch q (List.mem_cons_of_mem p hq))
      (fun q hq => hup q (List.mem_cons_of_mem p hq))
      (fun q hq => hsteps q (List.mem_cons_of_mem p hq))
      (fun q hq => htests q (List.mem_cons_of_mem p hq))
    simp [mainLoop, hp, ht, tagWith]

end MultiInstall

namespace MultiInstall

open GoStd Install

/-- Keeping the remote requests of a concatenation of package traces leaves the
concatenation of the remote traces. -/
theorem packageTraces_filter_isRemote (o : Oracle) (remoteTmp installDir : String)
    (useSudo : Bool) (password : String) (ps : List Package) (i : Nat) :
    ((ps.enumFrom i).flatMap
        (fun ip => tagWith ip.1 (packageTrace o remoteTmp installDir useSudo password ip.2))).filter
        (fun e => e.2.isRemote) =
      (ps.enumFrom i).flatMap
        (fun ip => tagWith ip.1 (remoteTrace remoteTmp installDir useSudo password ip.2)) := by
  induction ps generalizing i with
  | nil => rfl
  | cons p ps ih =>
    have h1 : (tagWith i (packageTrace o remoteTmp installDir useSudo password p)).filter
        (fun e => e.2.isRemote) =
        tagWith i (remoteTrace remoteTmp installDir useSudo password p) := by
      have hcomp : ((fun e : Nat × Event => e.2.isRemote) ∘ fun ev => (i, ev)) =
          Event.isRemote := rfl
      simp only [tagWith, List.filter_map, hcomp, packageTrace, List.filter_append,
        ensureTarball_filter_isRemote, remoteTrace_filter_isRemote, List.nil_append]
    simp only [List.enumFrom_cons, List.flatMap_cons, List.filter_append, h1, ih]

/-- The upload requests of a concatenation of package traces are one per
package, in the order of the packages. -/
theorem packageTraces_uploaded (o : Oracle) (remoteTmp installDir : String)
    (useSudo : Bool) (password : String) (ps : List Package) (i : Nat) :
    ((ps.enumFrom i).flatMap
        (fun ip => tagWith ip.1
          (packageTrace o remoteTmp installDir useSudo password ip.2))).filterMap
        (fun e => e.2.uploaded.map (fun l => (e.1, l))) =
      (ps.enumFrom i).map (fun ip => (ip.1, ip.2.Tarball)) := by
  induction ps generalizing i with
  | nil => rfl
  | cons p ps ih =>
    have h1 : (tagWith i (packageTrace o remoteTmp installDir useSudo password p)).filterMap
        (fun e => e.2.uploaded.map (fun l => (e.1, l))) = [(i, p.Tarball)] := by
      have h := packageTrace_uploaded o remoteTmp installDir useSudo password p
      have hcomp : ((fun e : Nat × Event => e.2.uploaded.map (fun l => (e.1, l))) ∘
          fun ev => (i, ev)) = fun ev => (Event.uploaded ev).map (fun l => (i, l)) := rfl
      have hmap : ∀ evs : List Event,
          evs.filterMap (fun ev => (Event.uploaded ev).map (fun l => (i, l))) =
            (evs.filterMap Event.uploaded).map (fun l => (i, l)) := by
        intro evs
        induction evs with
        | nil => rfl
        | cons ev evs ihe =>
          cases hu : Event.uploaded ev <;> simp [List.filterMap_cons, hu, ihe]
      simp only [tagWith, List.filterMap_map, hcomp, hmap, h, List.map_cons, List.map_nil]
    simp only [List.enumFrom_cons, List.flatMap_cons, List.filterMap_append, h1, ih,
      List.map_cons, List.singleton_append]

/-- The step list of `installPackage`, written out: the four base commands,
followed for an OpenSSL tarball with sudo on by the three registration
commands. -/
theorem steps_written_out (remoteTmp installDir : String) (useSudo : Bool)
    (password : String) (pkg : Package) :
    steps remoteTmp installDir useSudo password pkg =
      [ "cd " ++ remoteTmp ++ " && tar -xzf " ++ Base pkg.Tarball,
        "cd " ++ remoteTmp ++ "/" ++ pkg.DirName ++ " && " ++ pkg.Configure,
        "cd " ++ remoteTmp ++ "/" ++ pkg.DirName ++ " && " ++ pkg.Build,
        "cd " ++ remoteTmp ++ "/" ++ pkg.DirName ++ " && " ++ pkg.Install ] ++
      (if (Contains (ToLower pkg.Tarball) "openssl" && useSudo) = true then
        [ "if [ -d " ++ installDir ++ "/lib ]; then " ++
            ("echo '" ++ password ++ "' | sudo -S " ++
              ("sh -c 'echo " ++ installDir ++ "/lib > /etc/ld.so.conf.d/openssl.conf'")) ++
            "; fi",
          "if [ -d " ++ installDir ++ "/lib64 ]; then " ++
            ("echo '" ++ password ++ "' | sudo -S " ++
              ("sh -c 'echo " ++ installDir ++ "/lib64 >> /etc/ld.so.conf.d/openssl.conf'")) ++
            "; fi",
          "echo '" ++ password ++ "' | sudo -S " ++ "ldconfig -v" ]
      else []) := by
  cases hc : Contains (ToLower pkg.Tarball) "openssl" <;> cases useSudo <;>
    simp [steps, isOpenssl, hc, baseSteps, ldconfigSteps, chooseSudo]

/-- The self-test list of `installPackage`, written out: the declared
`pkg.SelfTest`, replaced for an OpenSSL tarball with sudo on by the four
probes. -/
theorem selfTests_written_out (installDir : String) (useSudo : Bool) (pkg : Package) :
    selfTests installDir useSudo pkg =
      (if (Contains (ToLower pkg.Tarball) "openssl" && useSudo) = true then
        [ "LD_LIBRARY_PATH=" ++ installDir ++ "/lib:$LD_LIBRARY_PATH " ++ installDir ++
            "/bin/openssl version || echo 'Test 1 failed'",
          "LD_LIBRARY_PATH=" ++ installDir ++ "/lib64:$LD_LIBRARY_PATH " ++ installDir ++
            "/bin/openssl version || echo 'Test 2 failed'",
          installDir ++ "/bin/openssl version || echo 'Test 3 failed'",
          "ls -la " ++ installDir ++ "/lib*/libssl* " ++ installDir ++
            "/lib*/libcrypto* 2>/dev/null || echo 'No SSL libraries found'" ]
      else pkg.SelfTest) := by
  cases hc : Contains (ToLower pkg.Tarball) "openssl" <;> cases useSudo <;>
    simp [selfTests, isOpenssl, hc, opensslSelfTests]

/-- The requests and the result of `ensureTarball`, written out. -/
theorem ensureTarball_written_out (o : Oracle) (pkg : Package) :
    (ensureTarball o pkg).1 =
      Event.stat pkg.Tarball ::
        (if o.stat pkg.Tarball = StatResult.missing then
          [Event.download pkg.Tarball pkg.URL] else []) ∧
    (ensureTarball o pkg).2 =
      (if o.stat pkg.Tarball = StatResult.missing then o.wget pkg.Tarball pkg.URL
        else none) := by
  cases h : o.stat pkg.Tarball <;> simp [ensureTarball, h]

/-- Claim C1.  In `multi_install.go`, for every package list: if for every
package the download (when the tarball is missing), the upload, every step
(extract, configure, build, install, and for an OpenSSL tarball with sudo on
the three registration commands) and every self-test (the declared
`pkg.SelfTest`, or for an OpenSSL tarball with sudo on the four probes that
`installPackage` puts in its place) succeed, then the package loop ends
normally (state Done, no `log.Fatalf`); its trace is the concatenation, in
list order, of the traces of the packages, each being the local tarball check,
the upload, the steps in the order written and the self-tests in the order
written; the remote requests alone are upload, steps and self-tests per
package; the package numbers never decrease along the trace, so no request of
a later package precedes a request of an earlier one; and there is exactly one
upload per package, in input order. -/
theorem mainLoop_all_succeed (o : Oracle) (remoteTmp installDir : String) (useSudo : Bool)
    (password : String) (ps : List Package)
    (hfetch : ∀ p ∈ ps, o.stat p.Tarball = StatResult.missing →
      o.wget p.Tarball p.URL = none)
    (hup : ∀ p ∈ ps, scpFile o p.Tarball (Join remoteTmp (Base p.Tarball)) = none)
    (hsteps : ∀ p ∈ ps, ∀ c ∈
      [ "cd " ++ remoteTmp ++ " && tar -xzf " ++ Base p.Tarball,
        "cd " ++ remoteTmp ++ "/" ++ p.DirName ++ " && " ++ p.Configure,
        "cd " ++ remoteTmp ++ "/" ++ p.DirName ++ " && " ++ p.Build,
        "cd " ++ remoteTmp ++ "/" ++ p.DirName ++ " && " ++ p.Install ] ++
      (if (Contains (ToLower p.Tarball) "openssl" && useSudo) = true then
        [ "if [ -d " ++ installDir ++ "/lib ]; then " ++
            ("echo '" ++ password ++ "' | sudo -S " ++
              ("sh -c 'echo " ++ installDir ++ "/lib > /etc/ld.so.conf.d/openssl.conf'")) ++
            "; fi",
          "if [ -d " ++ installDir ++ "/lib64 ]; then " ++
            ("echo '" ++ password ++ "' | sudo -S " ++
              ("sh -c 'echo " ++ installDir ++ "/lib64 >> /etc/ld.so.conf.d/openssl.conf'")) ++
            "; fi",
          "echo '" ++ password ++ "' | sudo -S " ++ "ldconfig -v" ]
      else []), runRemote o c = none)
    (htests : ∀ p ∈ ps, ∀ c ∈
      (if (Contains (ToLower p.Tarball) "openssl" && useSudo) = true then
        [ "LD_LIBRARY_PATH=" ++ installDir ++ "/lib:$LD_LIBRARY_PATH " ++ installDir ++
            "/bin/openssl version || echo 'Test 1 failed'",
          "LD_LIBRARY_PATH=" ++ installDir ++ "/lib64:$LD_LIBRARY_PATH " ++ installDir ++
            "/bin/openssl version || echo 'Test 2 failed'",
          installDir ++ "/bin/openssl version || echo 'Test 3 failed'",
          "ls -la " ++ installDir ++ "/lib*/libssl* " ++ installDir ++
            "/lib*/libcrypto* 2>/dev/null || echo 'No SSL libraries found'" ]
      else p.SelfTest), runRemote o c = none) :
    (mainLoop o remoteTmp installDir useSudo password 0 ps).2 = Outcome.done ∧
    (mainLoop o remoteTmp installDir useSudo password 0 ps).1 =
      ps.enum.flatMap
        (fun ip =>
          (Event.stat ip.2.Tarball ::
            ((if o.stat ip.2.Tarball = StatResult.missing then
                [Event.download ip.2.Tarball ip.2.URL] else []) ++
              Event.upload ip.2.Tarball (Join remoteTmp (Base ip.2.Tarball)) ::
                ((([ "cd " ++ remoteTmp ++ " && tar -xzf " ++ Base ip.2.Tarball,
                      "cd " ++ remoteTmp ++ "/" ++ ip.2.DirName ++ " && " ++ ip.2.Configure,
                      "cd " ++ remoteTmp ++ "/" ++ ip.2.DirName ++ " && " ++ ip.2.Build,
                      "cd " ++ remoteTmp ++ "/" ++ ip.2.DirName ++ " && " ++ ip.2.Install ] ++
                    (if (Contains (ToLower ip.2.Tarball) "openssl" && useSudo) = true then
                      [ "if [ -d " ++ installDir ++ "/lib ]; then " ++
                          ("echo '" ++ password ++ "' | sudo -S " ++
                            ("sh -c 'echo " ++ installDir ++
                              "/lib > /etc/ld.so.conf.d/openssl.conf'")) ++ "; fi",
                        "if [ -d " ++ installDir ++ "/lib64 ]; then " ++
                          ("echo '" ++ password ++ "' | sudo -S " ++
                            ("sh -c 'echo " ++ installDir ++
                              "/lib64 >> /etc/ld.so.conf.d/openssl.conf'")) ++ "; fi",
                        "echo '" ++ password ++ "' | sudo -S " ++ "ldconfig -v" ]
                    else [])).map Event.run) ++
                  ((if (Contains (ToLower ip.2.Tarball) "openssl" && useSudo) = true then
                      [ "LD_LIBRARY_PATH=" ++ installDir ++ "/lib:$LD_LIBRARY_PATH " ++
                          installDir ++ "/bin/openssl version || echo 'Test 1 failed'",
                        "LD_LIBRARY_PATH=" ++ installDir ++ "/lib64:$LD_LIBRARY_PATH " ++
                          installDir ++ "/bin/openssl version || echo 'Test 2 failed'",
                        installDir ++ "/bin/openssl version || echo 'Test 3 failed'",
                        "ls -la " ++ installDir ++ "/lib*/libssl* " ++ installDir ++
                          "/lib*/libcrypto* 2>/dev/null || echo 'No SSL libraries found'" ]
                    else ip.2.SelfTest).map Event.run)))).map (fun ev => (ip.1, ev))) ∧
    (mainLoop o remoteTmp installDir useSudo password 0 ps).1.filter (fun e => e.2.isRemote) =
      ps.enum.flatMap
        (fun ip =>
          (Event.upload ip.2.Tarball (Join remoteTmp (Base ip.2.Tarball)) ::
            ((([ "cd " ++ remoteTmp ++ " && tar -xzf " ++ Base ip.2.Tarball,
                  "cd " ++ remoteTmp ++ "/" ++ ip.2.DirName ++ " && " ++ ip.2.Configure,
                  "cd " ++ remoteTmp ++ "/" ++ ip.2.DirName ++ " && " ++ ip.2.Build,
                  "cd " ++ remoteTmp ++ "/" ++ ip.2.DirName ++ " && " ++ ip.2.Install ] ++
                (if (Contains (ToLower ip.2.Tarball) "openssl" && useSudo) = true then
                  [ "if [ -d " ++ installDir ++ "/lib ]; then " ++
                      ("echo '" ++ password ++ "' | sudo -S " ++
                        ("sh -c 'echo " ++ installDir ++
                          "/lib > /etc/ld.so.conf.d/openssl.conf'")) ++ "; fi",
                    "if [ -d " ++ installDir ++ "/lib64 ]; then " ++
                      ("echo '" ++ password ++ "' | sudo -S " ++
                        ("sh -c 'echo " ++ installDir ++
                          "/lib64 >> /etc/ld.so.conf.d/openssl.conf'")) ++ "; fi",
                    "echo '" ++ password ++ "' | sudo -S " ++ "ldconfig -v" ]
                else [])).map Event.run) ++
              ((if (Contains (ToLower ip.2.Tarball) "openssl" && useSudo) = true then
                  [ "LD_LIBRARY_PATH=" ++ installDir ++ "/lib:$LD_LIBRARY_PATH " ++
                      installDir ++ "/bin/openssl version || echo 'Test 1 failed'",
                    "LD_LIBRARY_PATH=" ++ installDir ++ "/lib64:$LD_LIBRARY_PATH " ++
                      installDir ++ "/bin/openssl version || echo 'Test 2 failed'",
                    installDir ++ "/bin/openssl version || echo 'Test 3 failed'",
                    "ls -la " ++ installDir ++ "/lib*/libssl* " ++ installDir ++
                      "/lib*/libcrypto* 2>/dev/null || echo 'No SSL libraries found'" ]
                else ip.2.SelfTest).map Event.run))).map (fun ev => (ip.1, ev))) ∧
    ((mainLoop o remoteTmp installDir useSudo password 0 ps).1.map Prod.fst).Pairwise
      (fun a b => a ≤ b) ∧
    (mainLoop o remoteTmp installDir useSudo password 0 ps).1.filterMap
        (fun e => e.2.uploaded.map (fun l => (e.1, l))) =
      ps.enum.map (fun ip => (ip.1, ip.2.Tarball)) := by
  have hfetch2 : ∀ p ∈ ps, (ensureTarball o p).2 = none := by
    intro p hp
    rw [(ensureTarball_written_out o p).2]
    by_cases hm : o.stat p.Tarball = StatResult.missing
    · rw [if_pos hm]
      exact hfetch p hp hm
    · rw [if_neg hm]
  have hsteps2 : ∀ p ∈ ps, ∀ c ∈ steps remoteTmp installDir useSudo password p,
      runRemote o c = none := by
    intro p hp c hc
    rw [steps_written_out] at hc
    exact hsteps p hp c hc
  have htests2 : ∀ p ∈ ps, ∀ c ∈ selfTests installDir useSudo p, runRemote o c = none := by
    intro p hp c hc
    rw [selfTests_written_out] at hc
    exact htests p hp c hc
  have h := mainLoop_of_all_ok o remoteTmp installDir useSudo password ps 0 hfetch2 hup
    hsteps2 htests2
  have hfilter := packageTraces_filter_isRemote o remoteTmp installDir useSudo password ps 0
  have hupl := packageTraces_uploaded o remoteTmp installDir useSudo password ps 0
  have hsorted := (tagged_indices_sorted
    (packageTrace o remoteTmp installDir useSudo password) ps 0).2
  have h1 : (mainLoop o remoteTmp installDir useSudo password 0 ps).1 =
      (ps.enumFrom 0).flatMap
        (fun ip => tagWith ip.1 (packageTrace o remoteTmp installDir useSudo password ip.2)) :=
    congrArg Prod.fst h
  rw [← h1] at hfilter hupl hsorted
  refine ⟨congrArg Prod.snd h, ?_, ?_, hsorted, hupl⟩
  · rw [h1]
    simp only [List.enum, tagWith, packageTrace, remoteTrace,
      (ensureTarball_written_out o _).1, steps_written_out, selfTests_written_out,
      List.cons_append]
  · rw [hfilter]
    simp only [List.enum, tagWith, remoteTrace, steps_written_out, selfTests_written_out]

end MultiInstall

namespace MultiInstall

open GoStd Install

/-- If the loop body fails for the package at position `k` of the list, the
loop started at number `i` ends through `log.Fatalf`, every recorded request
carries a number of at most `i + k`, and the trace is the one of the list cut
after position `k`. -/
theorem mainLoop_of_failure_at (o : Oracle) (remoteTmp installDir : String) (useSudo : Bool)
    (password : String) (ps : List Package) (i k : Nat) (p : Package)
    (hp : ps[k]? = some p)
    (hfail : (processPackage o remoteTmp installDir useSudo password p).2 ≠ none) :
    (mainLoop o remoteTmp installDir useSudo password i ps).2.isFailed = true ∧
    (∀ e ∈ (mainLoop o remoteTmp installDir useSudo password i ps).1, e.1 ≤ i + k) ∧
    mainLoop o remoteTmp installDir useSudo password i ps =
      mainLoop o remoteTmp installDir useSudo password i (ps.take (k + 1)) := by
  induction ps generalizing i k with
  | nil => simp at hp
  | cons q ps ih =>
    cases hq : (processPackage o remoteTmp installDir useSudo password q).2 with
    | some msg =>
      refine ⟨?_, ?_, ?_⟩
      · simp [mainLoop, hq, Outcome.isFailed]
      · intro e he
        simp only [mainLoop, hq, List.mem_map] at he
        obtain ⟨ev, -, rfl⟩ := he
        exact Nat.le_add_right i k
      · simp [mainLoop, hq, List.take_succ_cons]
    | none =>
      cases k with
      | zero =>
        simp only [List.getElem?_cons_zero, Option.some.injEq] at hp
        subst hp
        exact absurd hq hfail
      | succ k =>
        simp only [List.getElem?_cons_succ] at hp
        obtain ⟨h1, h2, h3⟩ := ih (i + 1) k hp
        refine ⟨?_, ?_, ?_⟩
        · simpa [mainLoop, hq] using h1
        · intro e he
          simp only [mainLoop, hq, List.mem_append, List.mem_map] at he
          rcases he with ⟨ev, -, rfl⟩ | he
          · exact Nat.le_add_right i (k + 1)
          · have := h2 e he
            omega
        · simp only [mainLoop, hq, List.take_succ_cons]
          rw [← h3]

/-- Claim C2.  In `multi_install.go`, for every package list and every
position `k`: if processing the package at position `k` ends in a fatal error
(the loop body reaches `log.Fatalf`, be it for a failed download, a failed
upload, a failed step or a failed strict self-test), then the run ends Failed,
no recorded request (tarball check, download, upload, step or self-test)
belongs to a package after `k`, and the whole run is the run on the list cut
after position `k`. -/
theorem mainLoop_fatal_stops_later_packages (o : Oracle) (remoteTmp installDir : String)
    (useSudo : Bool) (password : String) (ps : List Package) (k : Nat) (p : Package)
    (hp : ps[k]? = some p)
    (hfail : (processPackage o remoteTmp installDir useSudo password p).2 ≠ none) :
    (mainLoop o remoteTmp installDir useSudo password 0 ps).2.isFailed = true ∧
    (∀ e ∈ (mainLoop o remoteTmp installDir useSudo password 0 ps).1, e.1 ≤ k) ∧
    mainLoop o remoteTmp installDir useSudo password 0 ps =
      mainLoop o remoteTmp installDir useSudo password 0 (ps.take (k + 1)) := by
  have h := mainLoop_of_failure_at o remoteTmp installDir useSudo password ps 0 k p hp hfail
  simpa using h

end MultiInstall

/-! ## Step lists and failure policy -/

/-- Claim C3.  In `installPackage` of `multi_install.go` and of
`single_install.go`, once the upload has succeeded: if the steps before some
step `c` all succeed and `c` fails with error `e`, then the requests issued are
the upload and the steps up to and including `c` (no later step, no self-test),
and the returned error reads `command failed: <c>: <e>`.  If the tarball check
succeeded, the message of `log.Fatalf` in `main` is that error preceded by
`installation failed for <Tarball>: ` (multi) or `failed installing <Tarball>: `
(single). -/
theorem installPackage_first_failing_step (o : Oracle) (remoteTmp installDir : String)
    (useSudo : Bool) (password : String) (pkg : Package) (pre post : List String)
    (c e : String)
    (hup : Install.scpFile o pkg.Tarball (GoStd.Join remoteTmp (GoStd.Base pkg.Tarball)) = none)
    (hpre : ∀ x ∈ pre, Install.runRemote o x = none)
    (hc : Install.runRemote o c = some e) :
    (MultiInstall.steps remoteTmp installDir useSudo password pkg = pre ++ c :: post →
      MultiInstall.installPackage o remoteTmp installDir useSudo password pkg =
        (Event.upload pkg.Tarball (GoStd.Join remoteTmp (GoStd.Base pkg.Tarball)) ::
            (pre ++ [c]).map Event.run,
          some ("command failed: " ++ c ++ ": " ++ e)) ∧
      ((Install.ensureTarball o pkg).2 = none →
        (MultiInstall.processPackage o remoteTmp installDir useSudo password pkg).2 =
          some ("installation failed for " ++ pkg.Tarball ++ ": " ++
            ("command failed: " ++ c ++ ": " ++ e)))) ∧
    (SingleInstall.steps remoteTmp installDir useSudo password pkg = pre ++ c :: post →
      SingleInstall.installPackage o remoteTmp pkg useSudo password installDir =
        (Event.upload pkg.Tarball (GoStd.Join remoteTmp (GoStd.Base pkg.Tarball)) ::
            (pre ++ [c]).map Event.run,
          some ("command failed: " ++ c ++ ": " ++ e)) ∧
      ((Install.ensureTarball o pkg).2 = none →
        (SingleInstall.processPackage o remoteTmp installDir useSudo password pkg).2 =
          some ("failed installing " ++ pkg.Tarball ++ ": " ++
            ("command failed: " ++ c ++ ": " ++ e)))) := by
  have hrun := Install.runSteps_of_first_failure o pre post c e hpre hc
  constructor
  · intro hs
    have hi : MultiInstall.installPackage o remoteTmp installDir useSudo password pkg =
        (Event.upload pkg.Tarball (GoStd.Join remoteTmp (GoStd.Base pkg.Tarball)) ::
            (pre ++ [c]).map Event.run,
          some ("command failed: " ++ c ++ ": " ++ e)) := by
      simp only [MultiInstall.installPackage, hup, hs, hrun]
    refine ⟨hi, ?_⟩
    intro hf
    simp only [MultiInstall.processPackage, hf, hi]
  · intro hs
    have hi : SingleInstall.installPackage o remoteTmp pkg useSudo password installDir =
        (Event.upload pkg.Tarball (GoStd.Join remoteTmp (GoStd.Base pkg.Tarball)) ::
            (pre ++ [c]).map Event.run,
          some ("command failed: " ++ c ++ ": " ++ e)) := by
      simp only [SingleInstall.installPackage, hup, hs, hrun]
    refine ⟨hi, ?_⟩
    intro hf
    simp only [SingleInstall.processPackage, hf, hi]

namespace MultiInstall

open GoStd Install

/-- Claim C4.  In `installPackage` of `multi_install.go`, for a package whose
lower-cased tarball name does not contain `openssl`, or when sudo is off, the
step list is exactly the four commands extract, configure, build, install, in
this order. -/
theorem steps_without_registration (remoteTmp installDir : String) (useSudo : Bool)
    (password : String) (pkg : Package)
    (h : Contains (ToLower pkg.Tarball) "openssl" = false ∨ useSudo = false) :
    steps remoteTmp installDir useSudo password pkg =
      [ "cd " ++ remoteTmp ++ " && tar -xzf " ++ Base pkg.Tarball,
        "cd " ++ remoteTmp ++ "/" ++ pkg.DirName ++ " && " ++ pkg.Configure,
        "cd " ++ remoteTmp ++ "/" ++ pkg.DirName ++ " && " ++ pkg.Build,
        "cd " ++ remoteTmp ++ "/" ++ pkg.DirName ++ " && " ++ pkg.Install ] ∧
    (steps remoteTmp installDir useSudo password pkg).length = 4 := by
  have hcond : (isOpenssl pkg && useSudo) = false := by
    rcases h with h | h
    · simp [isOpenssl, h]
    · simp [h]
  simp [steps, hcond, baseSteps]

/-- Claim C5.  In `installPackage` of `multi_install.go`, for a package whose
lower-cased tarball name contains `openssl` and with sudo on, the step list is
the four base steps followed by the registration of `<installDir>/lib` guarded
by `if [ -d <installDir>/lib ]`, the registration of `<installDir>/lib64`
guarded by `if [ -d <installDir>/lib64 ]`, and the elevated `ldconfig -v` as
the last of seven steps. -/
theorem steps_with_registration (remoteTmp installDir password : String) (pkg : Package)
    (h : Contains (ToLower pkg.Tarball) "openssl" = true) :
    steps remoteTmp installDir true password pkg =
      [ "cd " ++ remoteTmp ++ " && tar -xzf " ++ Base pkg.Tarball,
        "cd " ++ remoteTmp ++ "/" ++ pkg.DirName ++ " && " ++ pkg.Configure,
        "cd " ++ remoteTmp ++ "/" ++ pkg.DirName ++ " && " ++ pkg.Build,
        "cd " ++ remoteTmp ++ "/" ++ pkg.DirName ++ " && " ++ pkg.Install,
        "if [ -d " ++ installDir ++ "/lib ]; then " ++
          ("echo '" ++ password ++ "' | sudo -S " ++
            ("sh -c 'echo " ++ installDir ++ "/lib > /etc/ld.so.conf.d/openssl.conf'")) ++
          "; fi",
        "if [ -d " ++ installDir ++ "/lib64 ]; then " ++
          ("echo '" ++ password ++ "' | sudo -S " ++
            ("sh -c 'echo " ++ installDir ++ "/lib64 >> /etc/ld.so.conf.d/openssl.conf'")) ++
          "; fi",
        "echo '" ++ password ++ "' | sudo -S " ++ "ldconfig -v" ] ∧
    (steps remoteTmp installDir true password pkg).length = 7 ∧
    (steps remoteTmp installDir true password pkg).getLast? =
      some ("echo '" ++ password ++ "' | sudo -S " ++ "ldconfig -v") := by
  have hcond : (isOpenssl pkg && true) = true := by simp [isOpenssl, h]
  simp [steps, hcond, baseSteps, ldconfigSteps, chooseSudo]

/-- Claim C6.  In `installPackage` of `multi_install.go`, for a package whose
lower-cased tarball name does not contain `openssl`, once the upload and all
steps have succeeded: if the self-tests before some self-test `c` all succeed
and `c` fails with error `e`, then the self-tests run are those up to and
including `c` and no later one, `installPackage` returns the error
`self-test failed: <c>: <e>`, and the package loop stops there with
`log.Fatalf`, whatever packages follow. -/
theorem installPackage_first_failing_selftest (o : Oracle) (remoteTmp installDir : String)
    (useSudo : Bool) (password : String) (pkg : Package) (pre post : List String)
    (c e : String)
    (hstrict : Contains (ToLower pkg.Tarball) "openssl" = false)
    (hup : scpFile o pkg.Tarball (Join remoteTmp (Base pkg.Tarball)) = none)
    (hsteps : ∀ x ∈ steps remoteTmp installDir useSudo password pkg, runRemote o x = none)
    (htests : pkg.SelfTest = pre ++ c :: post)
    (hpre : ∀ x ∈ pre, runRemote o x = none)
    (hc : runRemote o c = some e) :
    installPackage o remoteTmp installDir useSudo password pkg =
      (Event.upload pkg.Tarball (Join remoteTmp (Base pkg.Tarball)) ::
          ((steps remoteTmp installDir useSudo password pkg).map Event.run ++
            (pre ++ [c]).map Event.run),
        some ("self-test failed: " ++ c ++ ": " ++ e)) ∧
    ((ensureTarball o pkg).2 = none → ∀ (i : Nat) (rest : List Package),
      mainLoop o remoteTmp installDir useSudo password i (pkg :: rest) =
        (tagWith i ((ensureTarball o pkg).1 ++
            Event.upload pkg.Tarball (Join remoteTmp (Base pkg.Tarball)) ::
              ((steps remoteTmp installDir useSudo password pkg).map Event.run ++
                (pre ++ [c]).map Event.run)),
          Outcome.failed ("installation failed for " ++ pkg.Tarball ++ ": " ++
            ("self-test failed: " ++ c ++ ": " ++ e)))) := by
  have hs : isOpenssl pkg = false := hstrict
  have hsel : selfTests installDir useSudo pkg = pre ++ c :: post := by
    simp [selfTests, hs, htests]
  have hi : installPackage o remoteTmp installDir useSudo password pkg =
      (Event.upload pkg.Tarball (Join remoteTmp (Base pkg.Tarball)) ::
          ((steps remoteTmp installDir useSudo password pkg).map Event.run ++
            (pre ++ [c]).map Event.run),
        some ("self-test failed: " ++ c ++ ": " ++ e)) := by
    simp only [installPackage, hup, runSteps_of_all_ok o _ hsteps, hsel,
      runSelfTests_of_first_failure o pkg pre post c e hs hpre hc]
  refine ⟨hi, ?_⟩
  intro hf i rest
  simp only [mainLoop, processPackage, hf, hi, tagWith]

end MultiInstall

/-! ## Self-test policies -/

namespace SingleInstall

open GoStd Install

/-- The diagnostic loop runs every command, whatever the commands report. -/
theorem runDiagnostics_eq (o : Oracle) (ds : List String) :
    runDiagnostics o ds = ds.map Event.run := by
  induction ds with
  | nil => rfl
  | cons d ds ih => simp [runDiagnostics, ih]

/-- Claim C7.  In `installPackage` of `single_install.go`, once the upload and
all steps have succeeded: if each of the four test approaches fails, the
fourth with error `e4`, then the four approaches are attempted once each in
declared order, after them every diagnostic command is run once in declared
order whatever the diagnostics report, and `installPackage` returns the error
`all OpenSSL tests failed, last error: <e4>`, which `main` turns into
`log.Fatalf`. -/
theorem installPackage_all_tests_fail (o : Oracle) (remoteTmp installDir password : String)
    (useSudo : Bool) (pkg : Package) (e4 : String)
    (hup : scpFile o pkg.Tarball (Join remoteTmp (Base pkg.Tarball)) = none)
    (hsteps : ∀ x ∈ steps remoteTmp installDir useSudo password pkg, runRemote o x = none)
    (hfail : ∀ c ∈ testApproaches installDir, runRemote o c ≠ none)
    (hlast : runRemote o ("ldd " ++ installDir ++ "/bin/openssl") = some e4) :
    installPackage o remoteTmp pkg useSudo password installDir =
      (Event.upload pkg.Tarball (Join remoteTmp (Base pkg.Tarball)) ::
          ((steps remoteTmp installDir useSudo password pkg).map Event.run ++
            [ Event.run ("LD_LIBRARY_PATH=" ++ installDir ++ "/lib:$LD_LIBRARY_PATH " ++
                installDir ++ "/bin/openssl version"),
              Event.run ("LD_LIBRARY_PATH=" ++ installDir ++ "/lib64:$LD_LIBRARY_PATH " ++
                installDir ++ "/bin/openssl version"),
              Event.run (installDir ++ "/bin/openssl version"),
              Event.run ("ldd " ++ installDir ++ "/bin/openssl") ] ++
            [ Event.run ("ls -la " ++ installDir ++ "/lib*"),
              Event.run ("ls -la " ++ installDir ++ "/bin/openssl"),
              Event.run "cat /etc/ld.so.conf.d/openssl.conf || echo 'openssl.conf not found'",
              Event.run "ldconfig -p | grep ssl || echo 'No ssl libs found in ldconfig'" ]),
        some ("all OpenSSL tests failed, last error: " ++ e4)) ∧
    ((ensureTarball o pkg).2 = none →
      (processPackage o remoteTmp installDir useSudo password pkg).2 =
        some ("failed installing " ++ pkg.Tarball ++ ": " ++
          ("all OpenSSL tests failed, last error: " ++ e4))) := by
  have h1 : ∃ e, runRemote o ("LD_LIBRARY_PATH=" ++ installDir ++ "/lib:$LD_LIBRARY_PATH " ++
      installDir ++ "/bin/openssl version") = some e :=
    Option.ne_none_iff_exists'.1 (hfail _ (by simp [testApproaches]))
  have h2 : ∃ e, runRemote o ("LD_LIBRARY_PATH=" ++ installDir ++ "/lib64:$LD_LIBRARY_PATH " ++
      installDir ++ "/bin/openssl version") = some e :=
    Option.ne_none_iff_exists'.1 (hfail _ (by simp [testApproaches]))
  have h3 : ∃ e, runRemote o (installDir ++ "/bin/openssl version") = some e :=
    Option.ne_none_iff_exists'.1 (hfail _ (by simp [testApproaches]))
  obtain ⟨e1, h1⟩ := h1
  obtain ⟨e2, h2⟩ := h2
  obtain ⟨e3, h3⟩ := h3
  have ht : runTests o (testApproaches installDir) none =
      ((testApproaches installDir).map Event.run, false, some e4) := by
    simp [testApproaches, runTests, h1, h2, h3, hlast]
  have hi : installPackage o remoteTmp pkg useSudo password installDir =
      (Event.upload pkg.Tarball (Join remoteTmp (Base pkg.Tarball)) ::
          ((steps remoteTmp installDir useSudo password pkg).map Event.run ++
            (testApproaches installDir).map Event.run ++
            (diagnostics installDir).map Event.run),
        some ("all OpenSSL tests failed, last error: " ++ e4)) := by
    simp [installPackage, hup, runSteps_of_all_ok o _ hsteps, ht, runDiagnostics_eq, fmtErr]
  refine ⟨?_, ?_⟩
  · rw [hi]
    simp [testApproaches, diagnostics]
  · intro hf
    simp only [processPackage, hf, hi]

end SingleInstall

namespace MultiInstall

open GoStd Install

/-- Claim C8, as the code has it.  In `installPackage` of `multi_install.go`,
for a package whose lower-cased tarball name contains `openssl`, once the
upload and all steps have succeeded: every self-test command is attempted once,
in order, whatever each of them reports, and `installPackage` returns nil; the
package loop does not stop and goes on with the packages that follow. -/
theorem installPackage_openssl_tests_never_fatal (o : Oracle) (remoteTmp installDir : String)
    (useSudo : Bool) (password : String) (pkg : Package)
    (hopenssl : Contains (ToLower pkg.Tarball) "openssl" = true)
    (hup : scpFile o pkg.Tarball (Join remoteTmp (Base pkg.Tarball)) = none)
    (hsteps : ∀ x ∈ steps remoteTmp installDir useSudo password pkg, runRemote o x = none) :
    installPackage o remoteTmp installDir useSudo password pkg =
      (Event.upload pkg.Tarball (Join remoteTmp (Base pkg.Tarball)) ::
          ((steps remoteTmp installDir useSudo password pkg).map Event.run ++
            (selfTests installDir useSudo pkg).map Event.run),
        none) ∧
    ((ensureTarball o pkg).2 = none → ∀ (i : Nat) (rest : List Package),
      mainLoop o remoteTmp installDir useSudo password i (pkg :: rest) =
        (tagWith i (packageTrace o remoteTmp installDir useSudo password pkg) ++
            (mainLoop o remoteTmp installDir useSudo password (i + 1) rest).1,
          (mainLoop o remoteTmp installDir useSudo password (i + 1) rest).2)) := by
  have ho : isOpenssl pkg = true := hopenssl
  have hi : installPackage o remoteTmp installDir useSudo password pkg =
      (Event.upload pkg.Tarball (Join remoteTmp (Base pkg.Tarball)) ::
          ((steps remoteTmp installDir useSudo password pkg).map Event.run ++
            (selfTests installDir useSudo pkg).map Event.run),
        none) := by
    simp only [installPackage, hup, runSteps_of_all_ok o _ hsteps,
      runSelfTests_of_openssl o pkg _ ho]
  refine ⟨hi, ?_⟩
  intro hf i rest
  simp only [mainLoop, processPackage, hf, hi, tagWith, packageTrace, remoteTrace]

end MultiInstall

namespace MultiInstall

open GoStd Install

/-- Claim C9, evaluated on the code.  For the OpenSSL entry of `pkgs`, which is
built with an empty `SelfTest`: with sudo on, the self-test list in effect when
the self-test loop starts is the computed list (probe with `lib`, probe with
`lib64`, probe with no override, library listing); with sudo off, the list is
still empty, and in an environment where every request succeeds
`installPackage` runs the four base steps, no self-test at all, and returns
nil. -/
theorem openssl_selfTests_by_sudo (remoteTmp installDir passwordEnv : String) :
    selfTests installDir true (opensslPkg installDir true passwordEnv) =
      [ "LD_LIBRARY_PATH=" ++ installDir ++ "/lib:$LD_LIBRARY_PATH " ++ installDir ++
          "/bin/openssl version || echo 'Test 1 failed'",
        "LD_LIBRARY_PATH=" ++ installDir ++ "/lib64:$LD_LIBRARY_PATH " ++ installDir ++
          "/bin/openssl version || echo 'Test 2 failed'",
        installDir ++ "/bin/openssl version || echo 'Test 3 failed'",
        "ls -la " ++ installDir ++ "/lib*/libssl* " ++ installDir ++
          "/lib*/libcrypto* 2>/dev/null || echo 'No SSL libraries found'" ] ∧
    selfTests installDir false (opensslPkg installDir false passwordEnv) = [] ∧
    installPackage Sample.allOk remoteTmp installDir false passwordEnv
        (opensslPkg installDir false passwordEnv) =
      ([ Event.upload "openssl-3.4.2.tar.gz" (Join remoteTmp (Base "openssl-3.4.2.tar.gz")),
          Event.run ("cd " ++ remoteTmp ++ " && tar -xzf " ++ Base "openssl-3.4.2.tar.gz"),
          Event.run ("cd " ++ remoteTmp ++ "/" ++ "openssl-3.4.2" ++ " && " ++
            ("./config --prefix=" ++ installDir ++ " --openssldir=" ++ installDir ++
              "/ssl enable-legacy shared")),
          Event.run ("cd " ++ remoteTmp ++ "/" ++ "openssl-3.4.2" ++ " && " ++
            "make -j$(nproc)"),
          Event.run ("cd " ++ remoteTmp ++ "/" ++ "openssl-3.4.2" ++ " && " ++
            "make install") ],
        none) := by
  have ho : ∀ b, isOpenssl (opensslPkg installDir b passwordEnv) = true := by
    intro b
    have : (opensslPkg installDir b passwordEnv).Tarball = "openssl-3.4.2.tar.gz" := rfl
    unfold isOpenssl
    rw [this]
    decide
  have hse : selfTests installDir false (opensslPkg installDir false passwordEnv) = [] := by
    simp [selfTests, opensslPkg]
  refine ⟨?_, hse, ?_⟩
  · simp [selfTests, ho, opensslSelfTests]
  · have hup : scpFile Sample.allOk (opensslPkg installDir false passwordEnv).Tarball
        (Join remoteTmp (Base (opensslPkg installDir false passwordEnv).Tarball)) = none := rfl
    have hst : steps remoteTmp installDir false passwordEnv
        (opensslPkg installDir false passwordEnv) =
        baseSteps remoteTmp (opensslPkg installDir false passwordEnv) := by
      simp [steps]
    have hrun := runSteps_of_all_ok Sample.allOk
      (baseSteps remoteTmp (opensslPkg installDir false passwordEnv)) (fun _ _ => rfl)
    simp only [installPackage, hup, hst, hse, hrun, runSelfTests, List.append_nil]
    simp [baseSteps, opensslPkg, chooseSudo]

end MultiInstall

/-! ## The upload of `ssh_capsule_load_and_run/main.go` -/

namespace Capsule

open GoStd

/-- One step of the digit loop behind `%o`. -/
theorem toDigitsCore_succ (f n : Nat) (ds : List Char) :
    Nat.toDigitsCore 8 (f + 1) n ds =
      if n / 8 = 0 then Nat.digitChar (n % 8) :: ds
      else Nat.toDigitsCore 8 f (n / 8) (Nat.digitChar (n % 8) :: ds) := by
  simp [Nat.toDigitsCore]

/-- For a value below `0o10000`, `%04o` prints exactly the four octal digits
of the value. -/
theorem fmtOctal04_of_lt (n : Nat) (h : n < 4096) :
    fmtOctal04 n =
      String.mk [Nat.digitChar (n / 512 % 8), Nat.digitChar (n / 64 % 8),
        Nat.digitChar (n / 8 % 8), Nat.digitChar (n % 8)] := by
  have hz : Nat.digitChar 0 = '0' := rfl
  by_cases h1 : n / 8 = 0
  · have a : n / 512 % 8 = 0 := by omega
    have b : n / 64 % 8 = 0 := by omega
    have c : n / 8 % 8 = 0 := by omega
    simp [fmtOctal04, Nat.toDigits, toDigitsCore_succ, h1, a, b, c, hz, List.replicate]
  · obtain ⟨m, rfl⟩ : ∃ m, n = m + 1 := ⟨n - 1, by omega⟩
    by_cases h2 : (m + 1) / 8 / 8 = 0
    · have a : (m + 1) / 512 % 8 = 0 := by omega
      have b : (m + 1) / 64 % 8 = 0 := by omega
      simp [fmtOctal04, Nat.toDigits, toDigitsCore_succ, h1, h2, a, b, hz, List.replicate]
    · obtain ⟨k, rfl⟩ : ∃ k, m = k + 1 := ⟨m - 1, by omega⟩
      by_cases h3 : (k + 1 + 1) / 8 / 8 / 8 = 0
      · have a : (k + 1 + 1) / 512 % 8 = 0 := by omega
        have b : (k + 1 + 1) / 8 / 8 % 8 = (k + 1 + 1) / 64 % 8 := by omega
        simp [fmtOctal04, Nat.toDigits, toDigitsCore_succ, h1, h2, h3, a, b, hz, List.replicate]
      · obtain ⟨j, rfl⟩ : ∃ j, k = j + 1 := ⟨k - 1, by omega⟩
        have h4 : (j + 1 + 1 + 1) / 8 / 8 / 8 / 8 = 0 := by omega
        have a : (j + 1 + 1 + 1) / 8 / 8 / 8 % 8 = (j + 1 + 1 + 1) / 512 % 8 := by omega
        have b : (j + 1 + 1 + 1) / 8 / 8 % 8 = (j + 1 + 1 + 1) / 64 % 8 := by omega
        simp [fmtOctal04, Nat.toDigits, toDigitsCore_succ, h1, h2, h3, h4, a, b, hz,
          List.replicate]

/-- A write that the channel takes in full appends all its bytes. -/
theorem write_of_accepted (se : Session) (k : Nat) (buf p : List UInt8)
    (h : p.length ≤ se.accept k p.length) : se.write k buf p = buf ++ p := by
  simp [Session.write, List.take_of_length_le h]

/-- Claim C10.  In `scpUpload`, once the session, its input channel and the
remote `scp -t` have been set up, and if every write is taken in full: for
every payload `data`, mode `mode` and `remotePath`, the bytes the input channel
receives are the header line `C`, four octal digits of `mode AND 0o7777`, a
space, the decimal length of `data`, a space, the base name of `remotePath`
and a newline, then `data` unchanged, then one NUL byte, and nothing else; the
total length is the header length plus the payload length plus one. -/
theorem scpUpload_written (se : Session) (data : List UInt8) (remotePath : String) (mode : Nat)
    (hs : se.newSession = none) (hp : se.stdinPipe = none)
    (hstart : se.start ("scp -t " ++ shellQuote (Dir remotePath)) = none)
    (hw : ∀ k n, n ≤ se.accept k n) :
    (scpUpload se data remotePath mode).written =
      bytesOf ("C" ++
          String.mk [Nat.digitChar ((mode &&& 0o7777) / 512 % 8),
            Nat.digitChar ((mode &&& 0o7777) / 64 % 8),
            Nat.digitChar ((mode &&& 0o7777) / 8 % 8),
            Nat.digitChar ((mode &&& 0o7777) % 8)] ++
          " " ++ Nat.repr data.length ++ " " ++ Base remotePath ++ "\n") ++
        data ++ [0] ∧
    (scpUpload se data remotePath mode).written.length =
      (bytesOf (scpHeader mode data.length (Base remotePath))).length + data.length + 1 ∧
    mode &&& 0o7777 = mode % 4096 := by
  have hlt : mode &&& 0o7777 < 4096 :=
    Nat.lt_of_le_of_lt Nat.and_le_right (by decide)
  have hhead : scpHeader mode data.length (Base remotePath) =
      "C" ++
        String.mk [Nat.digitChar ((mode &&& 0o7777) / 512 % 8),
          Nat.digitChar ((mode &&& 0o7777) / 64 % 8),
          Nat.digitChar ((mode &&& 0o7777) / 8 % 8),
          Nat.digitChar ((mode &&& 0o7777) % 8)] ++
        " " ++ Nat.repr data.length ++ " " ++ Base remotePath ++ "\n" := by
    simp only [scpHeader, fmtOctal04_of_lt _ hlt]
    rfl
  have hwritten : (scpUpload se data remotePath mode).written =
      bytesOf (scpHeader mode data.length (Base remotePath)) ++ data ++ [0] := by
    have hprod : producer se data mode (Base remotePath) =
        bytesOf (scpHeader mode data.length (Base remotePath)) ++ data ++ [0] := by
      simp only [producer, write_of_accepted se _ _ _ (hw _ _), List.nil_append]
    cases hwait : se.wait <;> simp [scpUpload, hs, hp, hstart, hwait, hprod]
  refine ⟨?_, ?_, ?_⟩
  · rw [hwritten, hhead]
  · rw [hwritten]
    simp only [List.length_append, List.length_singleton]
  · exact Nat.and_pow_two_sub_one_eq_mod mode 12

end Capsule

/-! ## The properties at concrete inputs -/

namespace MultiInstall

open GoStd Install

/-- The four packages of `main` with prefix `/usr/local`, sudo on and password
`pw`, in an environment where every request succeeds: the run ends Done, the
remote requests are, per package and in list order, the upload, the steps and
the self-tests (the two declared ones of zlib, the four probes of OpenSSL, the
declared one of curl and of vim), and the package numbers never decrease. -/
theorem mainLoop_all_succeed_witness :
    (∀ p ∈ pkgs "/usr/local" true "pw", Sample.allOk.stat p.Tarball = StatResult.missing →
      Sample.allOk.wget p.Tarball p.URL = none) ∧
    (∀ p ∈ pkgs "/usr/local" true "pw",
      scpFile Sample.allOk p.Tarball (Join "/tmp" (Base p.Tarball)) = none) ∧
    (mainLoop Sample.allOk "/tmp" "/usr/local" true "pw" 0 (pkgs "/usr/local" true "pw")).2 =
      Outcome.done ∧
    (mainLoop Sample.allOk "/tmp" "/usr/local" true "pw" 0
        (pkgs "/usr/local" true "pw")).1.filter (fun e => e.2.isRemote) =
      [ (0, Event.upload "zlib-1.3.1.tar.gz" "/tmp/zlib-1.3.1.tar.gz"),
        (0, Event.run "cd /tmp && tar -xzf zlib-1.3.1.tar.gz"),
        (0, Event.run "cd /tmp/zlib-1.3.1 && ./configure --prefix=/usr/local"),
        (0, Event.run "cd /tmp/zlib-1.3.1 && make -j$(nproc)"),
        (0, Event.run "cd /tmp/zlib-1.3.1 && echo 'pw' | sudo -S make install"),
        (0, Event.run "echo 'pw' | sudo -S ldconfig"),
        (0, Event.run "ldconfig -p | grep zlib || echo 'zlib not found in ldconfig'"),
        (1, Event.upload "openssl-3.4.2.tar.gz" "/tmp/openssl-3.4.2.tar.gz"),
        (1, Event.run "cd /tmp && tar -xzf openssl-3.4.2.tar.gz"),
        (1, Event.run ("cd /tmp/openssl-3.4.2 && ./config --prefix=/usr/local " ++
          "--openssldir=/usr/local/ssl enable-legacy shared")),
        (1, Event.run "cd /tmp/openssl-3.4.2 && make -j$(nproc)"),
        (1, Event.run "cd /tmp/openssl-3.4.2 && echo 'pw' | sudo -S make install"),
        (1, Event.run ("if [ -d /usr/local/lib ]; then echo 'pw' | sudo -S " ++
          "sh -c 'echo /usr/local/lib > /etc/ld.so.conf.d/openssl.conf'; fi")),
        (1, Event.run ("if [ -d /usr/local/lib64 ]; then echo 'pw' | sudo -S " ++
          "sh -c 'echo /usr/local/lib64 >> /etc/ld.so.conf.d/openssl.conf'; fi")),
        (1, Event.run "echo 'pw' | sudo -S ldconfig -v"),
        (1, Event.run ("LD_LIBRARY_PATH=/usr/local/lib:$LD_LIBRARY_PATH " ++
          "/usr/local/bin/openssl version || echo 'Test 1 failed'")),
        (1, Event.run ("LD_LIBRARY_PATH=/usr/local/lib64:$LD_LIBRARY_PATH " ++
          "/usr/local/bin/openssl version || echo 'Test 2 failed'")),
        (1, Event.run "/usr/local/bin/openssl version || echo 'Test 3 failed'"),
        (1, Event.run ("ls -la /usr/local/lib*/libssl* /usr/local/lib*/libcrypto* " ++
          "2>/dev/null || echo 'No SSL libraries found'")),
        (2, Event.upload "curl-8.10.1.tar.gz" "/tmp/curl-8.10.1.tar.gz"),
        (2, Event.run "cd /tmp && tar -xzf curl-8.10.1.tar.gz"),
        (2, Event.run ("cd /tmp/curl-8.10.1 && PKG_CONFIG_PATH=/usr/local/lib/pkgconfig:" ++
          "$PKG_CONFIG_PATH ./configure --prefix=/usr/local --with-openssl=/usr/local")),
        (2, Event.run "cd /tmp/curl-8.10.1 && make -j$(nproc)"),
        (2, Event.run "cd /tmp/curl-8.10.1 && echo 'pw' | sudo -S make install"),
        (2, Event.run ("LD_LIBRARY_PATH=/usr/local/lib:$LD_LIBRARY_PATH " ++
          "/usr/local/bin/curl --version")),
        (3, Event.upload "vim-9.1.0000.tar.gz" "/tmp/vim-9.1.0000.tar.gz"),
        (3, Event.run "cd /tmp && tar -xzf vim-9.1.0000.tar.gz"),
        (3, Event.run ("cd /tmp/vim-9.1.0000 && ./configure --prefix=/usr/local " ++
          "--enable-multibyte --enable-cscope")),
        (3, Event.run "cd /tmp/vim-9.1.0000 && make -j$(nproc)"),
        (3, Event.run "cd /tmp/vim-9.1.0000 && echo 'pw' | sudo -S make install"),
        (3, Event.run "/usr/local/bin/vim --version | head -n 3") ] ∧
    ((mainLoop Sample.allOk "/tmp" "/usr/local" true "pw" 0
      (pkgs "/usr/local" true "pw")).1.map Prod.fst).Pairwise (fun a b => a ≤ b) :=
  ⟨fun _ _ _ => rfl, fun _ _ => rfl,
    (mainLoop_all_succeed Sample.allOk "/tmp" "/usr/local" true "pw"
      (pkgs "/usr/local" true "pw") (fun _ _ _ => rfl) (fun _ _ => rfl) (fun _ _ _ _ => rfl)
      (fun _ _ _ _ => rfl)).1,
    (mainLoop_all_succeed Sample.allOk "/tmp" "/usr/local" true "pw"
      (pkgs "/usr/local" true "pw") (fun _ _ _ => rfl) (fun _ _ => rfl) (fun _ _ _ _ => rfl)
      (fun _ _ _ _ => rfl)).2.2.1.trans (by decide),
    (mainLoop_all_succeed Sample.allOk "/tmp" "/usr/local" true "pw"
      (pkgs "/usr/local" true "pw") (fun _ _ _ => rfl) (fun _ _ => rfl) (fun _ _ _ _ => rfl)
      (fun _ _ _ _ => rfl)).2.2.2.1⟩

/-- The four packages of `main`, with the install step of OpenSSL (position 1)
failing: the run ends Failed and no request belongs to position 2 or 3. -/
theorem mainLoop_fatal_stops_later_packages_witness :
    (pkgs "/usr/local" true "pw")[1]? = some Sample.openssl ∧
    (processPackage
      (Sample.failingOn "cd /tmp/openssl-3.4.2 && echo 'pw' | sudo -S make install")
      "/tmp" "/usr/local" true "pw" Sample.openssl).2 ≠ none ∧
    (mainLoop (Sample.failingOn "cd /tmp/openssl-3.4.2 && echo 'pw' | sudo -S make install")
      "/tmp" "/usr/local" true "pw" 0 (pkgs "/usr/local" true "pw")).2.isFailed = true ∧
    (∀ e ∈ (mainLoop
        (Sample.failingOn "cd /tmp/openssl-3.4.2 && echo 'pw' | sudo -S make install")
        "/tmp" "/usr/local" true "pw" 0 (pkgs "/usr/local" true "pw")).1, e.1 ≤ 1) :=
  ⟨by decide, by decide,
    (mainLoop_fatal_stops_later_packages
      (Sample.failingOn "cd /tmp/openssl-3.4.2 && echo 'pw' | sudo -S make install")
      "/tmp" "/usr/local" true "pw" (pkgs "/usr/local" true "pw") 1 Sample.openssl
      (by decide) (by decide)).1,
    (mainLoop_fatal_stops_later_packages
      (Sample.failingOn "cd /tmp/openssl-3.4.2 && echo 'pw' | sudo -S make install")
      "/tmp" "/usr/local" true "pw" (pkgs "/usr/local" true "pw") 1 Sample.openssl
      (by decide) (by decide)).2.1⟩

/-- The zlib package without sudo, with its install step failing: both
installers return the `command failed` error for that step. -/
theorem installPackage_first_failing_step_witness :
    runRemote (Sample.failingOn "cd /tmp/zlib-1.3.1 && echo 'pw' | sudo -S make install")
      "cd /tmp/zlib-1.3.1 && echo 'pw' | sudo -S make install" =
      some "Process exited with status 1" ∧
    (MultiInstall.installPackage
      (Sample.failingOn "cd /tmp/zlib-1.3.1 && echo 'pw' | sudo -S make install")
      "/tmp" "/usr/local" false "pw" Sample.zlib).2 =
      some ("command failed: cd /tmp/zlib-1.3.1 && echo 'pw' | sudo -S make install: " ++
        "Process exited with status 1") ∧
    (SingleInstall.installPackage
      (Sample.failingOn "cd /tmp/zlib-1.3.1 && echo 'pw' | sudo -S make install")
      "/tmp" Sample.zlib false "pw" "/usr/local").2 =
      some ("command failed: cd /tmp/zlib-1.3.1 && echo 'pw' | sudo -S make install: " ++
        "Process exited with status 1") :=
  ⟨by decide,
    congrArg Prod.snd
      ((installPackage_first_failing_step
        (Sample.failingOn "cd /tmp/zlib-1.3.1 && echo 'pw' | sudo -S make install")
        "/tmp" "/usr/local" false "pw" Sample.zlib
        ["cd /tmp && tar -xzf zlib-1.3.1.tar.gz",
          "cd /tmp/zlib-1.3.1 && ./configure --prefix=/usr/local",
          "cd /tmp/zlib-1.3.1 && make -j$(nproc)"] []
        "cd /tmp/zlib-1.3.1 && echo 'pw' | sudo -S make install" "Process exited with status 1"
        (by decide) (by decide) (by decide)).1 (by decide)).1,
    congrArg Prod.snd
      ((installPackage_first_failing_step
        (Sample.failingOn "cd /tmp/zlib-1.3.1 && echo 'pw' | sudo -S make install")
        "/tmp" "/usr/local" false "pw" Sample.zlib
        ["cd /tmp && tar -xzf zlib-1.3.1.tar.gz",
          "cd /tmp/zlib-1.3.1 && ./configure --prefix=/usr/local",
          "cd /tmp/zlib-1.3.1 && make -j$(nproc)"] []
        "cd /tmp/zlib-1.3.1 && echo 'pw' | sudo -S make install" "Process exited with status 1"
        (by decide) (by decide) (by decide)).2 (by decide)).1⟩

/-- The zlib package has exactly the four base steps. -/
theorem steps_without_registration_witness :
    Contains (ToLower Sample.zlib.Tarball) "openssl" = false ∧
    steps "/tmp" "/usr/local" true "pw" Sample.zlib =
      [ "cd /tmp && tar -xzf zlib-1.3.1.tar.gz",
        "cd /tmp/zlib-1.3.1 && ./configure --prefix=/usr/local",
        "cd /tmp/zlib-1.3.1 && make -j$(nproc)",
        "cd /tmp/zlib-1.3.1 && echo 'pw' | sudo -S make install" ] :=
  ⟨by decide,
    (steps_without_registration "/tmp" "/usr/local" true "pw" Sample.zlib
      (Or.inl (by decide))).1.trans (by decide)⟩

/-- The OpenSSL package with sudo has seven steps, the last one the elevated
`ldconfig -v`. -/
theorem steps_with_registration_witness :
    Contains (ToLower Sample.openssl.Tarball) "openssl" = true ∧
    (steps "/tmp" "/usr/local" true "pw" Sample.openssl).length = 7 ∧
    (steps "/tmp" "/usr/local" true "pw" Sample.openssl).getLast? =
      some "echo 'pw' | sudo -S ldconfig -v" :=
  ⟨by decide,
    (steps_with_registration "/tmp" "/usr/local" "pw" Sample.openssl (by decide)).2.1,
    (steps_with_registration "/tmp" "/usr/local" "pw" Sample.openssl (by decide)).2.2.trans
      (by decide)⟩

/-- The zlib package with its second self-test failing: `installPackage`
returns the `self-test failed` error for that command. -/
theorem installPackage_first_failing_selftest_witness :
    runRemote
      (Sample.failingOn "ldconfig -p | grep zlib || echo 'zlib not found in ldconfig'")
      "ldconfig -p | grep zlib || echo 'zlib not found in ldconfig'" =
      some "Process exited with status 1" ∧
    (installPackage
      (Sample.failingOn "ldconfig -p | grep zlib || echo 'zlib not found in ldconfig'")
      "/tmp" "/usr/local" true "pw" Sample.zlib).2 =
      some ("self-test failed: ldconfig -p | grep zlib || echo 'zlib not found in ldconfig'" ++
        ": " ++ "Process exited with status 1") :=
  ⟨by decide,
    congrArg Prod.snd
      (installPackage_first_failing_selftest
        (Sample.failingOn "ldconfig -p | grep zlib || echo 'zlib not found in ldconfig'")
        "/tmp" "/usr/local" true "pw" Sample.zlib ["echo 'pw' | sudo -S ldconfig"] []
        "ldconfig -p | grep zlib || echo 'zlib not found in ldconfig'"
        "Process exited with status 1"
        (by decide) (by decide) (by decide) (by decide) (by decide) (by decide)).1⟩

/-- Claim C8 fails on the code.  For the OpenSSL package of `main`, in an
environment where the upload and all seven steps succeed and each of the four
self-test commands fails, `installPackage` returns nil and the run over the
four packages of `main` ends Done. -/
theorem installPackage_openssl_all_tests_fail_returns_nil :
    scpFile (Sample.failingOnAll (opensslSelfTests "/usr/local")) Sample.openssl.Tarball
      (Join "/tmp" (Base Sample.openssl.Tarball)) = none ∧
    (∀ x ∈ steps "/tmp" "/usr/local" true "pw" Sample.openssl,
      runRemote (Sample.failingOnAll (opensslSelfTests "/usr/local")) x = none) ∧
    (∀ c ∈ selfTests "/usr/local" true Sample.openssl,
      runRemote (Sample.failingOnAll (opensslSelfTests "/usr/local")) c ≠ none) ∧
    (installPackage (Sample.failingOnAll (opensslSelfTests "/usr/local")) "/tmp" "/usr/local" true
      "pw" Sample.openssl).2 = none ∧
    (mainLoop (Sample.failingOnAll (opensslSelfTests "/usr/local")) "/tmp" "/usr/local" true "pw" 0
      (pkgs "/usr/local" true "pw")).2 = Outcome.done := by
  decide

/-- The OpenSSL package with every self-test failing: all four self-tests are
in the trace and `installPackage` returns nil. -/
theorem installPackage_openssl_tests_never_fatal_witness :
    (∀ c ∈ selfTests "/usr/local" true Sample.openssl,
      runRemote (Sample.failingOnAll (opensslSelfTests "/usr/local")) c ≠ none) ∧
    installPackage (Sample.failingOnAll (opensslSelfTests "/usr/local")) "/tmp" "/usr/local" true
        "pw" Sample.openssl =
      (Event.upload Sample.openssl.Tarball (Join "/tmp" (Base Sample.openssl.Tarball)) ::
          ((steps "/tmp" "/usr/local" true "pw" Sample.openssl).map Event.run ++
            (selfTests "/usr/local" true Sample.openssl).map Event.run),
        none) :=
  ⟨by decide,
    (installPackage_openssl_tests_never_fatal
      (Sample.failingOnAll (opensslSelfTests "/usr/local")) "/tmp" "/usr/local" true "pw"
      Sample.openssl (by decide) (by decide) (by decide)).1⟩

end MultiInstall

namespace SingleInstall

open GoStd Install

/-- The OpenSSL package with all four test approaches failing:
`installPackage` returns the error that carries the last test error. -/
theorem installPackage_all_tests_fail_witness :
    (∀ c ∈ testApproaches "/usr/local",
      runRemote (Sample.failingOnAll (testApproaches "/usr/local")) c ≠ none) ∧
    (installPackage (Sample.failingOnAll (testApproaches "/usr/local")) "/tmp" Sample.openssl
      true "pw" "/usr/local").2 =
      some ("all OpenSSL tests failed, last error: " ++ "Process exited with status 127") :=
  ⟨by decide,
    congrArg Prod.snd
      (installPackage_all_tests_fail (Sample.failingOnAll (testApproaches "/usr/local"))
        "/tmp" "/usr/local" "pw" true Sample.openssl "Process exited with status 127"
        (by decide) (by decide) (by decide) (by decide)).1⟩

end SingleInstall

namespace Capsule

open GoStd

/-- A three-byte payload uploaded to `/tmp/sysinfo` with mode `0o755`: the
channel receives `C0755 3 sysinfo`, a newline, the payload and a NUL byte. -/
theorem scpUpload_written_witness :
    (∀ k n, n ≤ Sample.session.accept k n) ∧
    (scpUpload Sample.session [1, 2, 3] "/tmp/sysinfo" 0o755).written =
      [67, 48, 55, 53, 53, 32, 51, 32, 115, 121, 115, 105, 110, 102, 111, 10, 1, 2, 3, 0] :=
  ⟨fun _ n => Nat.le_refl n,
    (scpUpload_written Sample.session [1, 2, 3] "/tmp/sysinfo" 0o755 rfl rfl rfl
      (fun _ n => Nat.le_refl n)).1.trans (by decide)⟩

end Capsule

/-! ## Errors of the upload in `multi_install.go` -/

namespace Install

open GoStd

/-- Unless the goroutine panics, `scpFile` returns what the return-value model
`scpFile` gives. -/
theorem scpFileTransfer_ending (o : Oracle) (ch : Channel) (localPath remotePath : String)
    (hpipe : ch.stdinPipe = none) :
    (scpFileTransfer o ch localPath remotePath).ending =
      UploadEnd.returned (scpFile o localPath remotePath) := by
  cases hs : o.newSession ("scp -tr " ++ Dir remotePath) with
  | some e => simp [scpFileTransfer, scpFile, hs]
  | none =>
    cases ho : o.openLocal localPath with
    | some e => simp [scpFileTransfer, scpFile, hs, ho]
    | none => simp [scpFileTransfer, scpFile, hs, ho, hpipe]

/-- Claim C11, as the code has it.  In `scpFile` of `multi_install.go`, an
error opening the session, or opening the local file, is returned and makes
the enclosing `installPackage` fail for the package with that error before any
step runs; once session, file and input channel are there, `scpFile` returns
exactly the result of `session.Run`, whatever the writes of header, payload and
terminator did, so only a failing run makes `installPackage` fail. -/
theorem scpFile_returns_setup_or_run_error (o : Oracle) (ch : Channel)
    (remoteTmp installDir : String) (useSudo : Bool) (password : String) (pkg : Package) :
    (∀ e, o.newSession ("scp -tr " ++ Dir (Join remoteTmp (Base pkg.Tarball))) = some e →
      (scpFileTransfer o ch pkg.Tarball (Join remoteTmp (Base pkg.Tarball))).ending =
        UploadEnd.returned (some e) ∧
      (scpFileTransfer o ch pkg.Tarball (Join remoteTmp (Base pkg.Tarball))).written = [] ∧
      MultiInstall.installPackage o remoteTmp installDir useSudo password pkg =
        ([Event.upload pkg.Tarball (Join remoteTmp (Base pkg.Tarball))], some e)) ∧
    (∀ e, o.newSession ("scp -tr " ++ Dir (Join remoteTmp (Base pkg.Tarball))) = none →
      o.openLocal pkg.Tarball = some e →
      (scpFileTransfer o ch pkg.Tarball (Join remoteTmp (Base pkg.Tarball))).ending =
        UploadEnd.returned (some e) ∧
      MultiInstall.installPackage o remoteTmp installDir useSudo password pkg =
        ([Event.upload pkg.Tarball (Join remoteTmp (Base pkg.Tarball))], some e)) ∧
    (o.newSession ("scp -tr " ++ Dir (Join remoteTmp (Base pkg.Tarball))) = none →
      o.openLocal pkg.Tarball = none → ch.stdinPipe = none →
      (scpFileTransfer o ch pkg.Tarball (Join remoteTmp (Base pkg.Tarball))).ending =
        UploadEnd.returned
          (o.sessionRun ("scp -tr " ++ Dir (Join remoteTmp (Base pkg.Tarball)))) ∧
      ∀ e, o.sessionRun ("scp -tr " ++ Dir (Join remoteTmp (Base pkg.Tarball))) = some e →
        MultiInstall.installPackage o remoteTmp installDir useSudo password pkg =
          ([Event.upload pkg.Tarball (Join remoteTmp (Base pkg.Tarball))], some e)) := by
  refine ⟨?_, ?_, ?_⟩
  · intro e hs
    have hf : scpFile o pkg.Tarball (Join remoteTmp (Base pkg.Tarball)) = some e := by
      simp [scpFile, hs]
    refine ⟨?_, ?_, ?_⟩
    · simp [scpFileTransfer, hs]
    · simp [scpFileTransfer, hs]
    · simp [MultiInstall.installPackage, hf]
  · intro e hs ho
    have hf : scpFile o pkg.Tarball (Join remoteTmp (Base pkg.Tarball)) = some e := by
      simp [scpFile, hs, ho]
    refine ⟨?_, ?_⟩
    · simp [scpFileTransfer, hs, ho]
    · simp [MultiInstall.installPackage, hf]
  · intro hs ho hp
    refine ⟨?_, ?_⟩
    · simp [scpFileTransfer, hs, ho, hp]
    · intro e hr
      have hf : scpFile o pkg.Tarball (Join remoteTmp (Base pkg.Tarball)) = some e := by
        simp [scpFile, hs, ho, hr]
      simp [MultiInstall.installPackage, hf]

/-- Claim C11 fails on the code.  With an input channel that takes no byte of
the header, of the payload or of the terminator, and a session whose run
reports success, `scpFile` returns nil, nothing has reached the remote side,
and `installPackage` goes on to the end and returns nil. -/
theorem scpFile_ignores_write_errors :
    (∀ k n, 0 < n → Sample.deafChannel.accept k n < n) ∧
    (scpFileTransfer Sample.allOk Sample.deafChannel Sample.zlib.Tarball
      (Join "/tmp" (Base Sample.zlib.Tarball))).ending = UploadEnd.returned none ∧
    (scpFileTransfer Sample.allOk Sample.deafChannel Sample.zlib.Tarball
      (Join "/tmp" (Base Sample.zlib.Tarball))).written = [] ∧
    (MultiInstall.installPackage Sample.allOk "/tmp" "/usr/local" true "pw" Sample.zlib).2 =
      none :=
  ⟨fun _ _ h => h, by decide, by decide, by decide⟩

/-- A session that cannot be opened, and a session whose run fails after all
writes were dropped: `installPackage` fails with the error in both cases. -/
theorem scpFile_returns_setup_or_run_error_witness :
    (MultiInstall.installPackage
      { Sample.allOk with newSession := fun _ => some "ssh: unexpected packet" }
      "/tmp" "/usr/local" true "pw" Sample.zlib).2 = some "ssh: unexpected packet" ∧
    (MultiInstall.installPackage
      { Sample.allOk with sessionRun := fun _ => some "Process exited with status 1" }
      "/tmp" "/usr/local" true "pw" Sample.zlib).2 = some "Process exited with status 1" :=
  ⟨congrArg Prod.snd
      ((scpFile_returns_setup_or_run_error
        { Sample.allOk with newSession := fun _ => some "ssh: unexpected packet" }
        Sample.deafChannel "/tmp" "/usr/local" true "pw" Sample.zlib).1
        "ssh: unexpected packet" rfl).2.2,
    congrArg Prod.snd
      (((scpFile_returns_setup_or_run_error
        { Sample.allOk with sessionRun := fun _ => some "Process exited with status 1" }
        Sample.deafChannel "/tmp" "/usr/local" true "pw" Sample.zlib).2.2 rfl rfl rfl).2
        "Process exited with status 1" rfl)⟩

end Install

/-! ## The tarball check on a file system -/

namespace Install

open GoStd

/-- On the oracle read off a file system, `ensureTarball` issues the requests
and returns the error of `ensureTarballFS`. -/
theorem ensureTarballFS_eq (fs : LocalFS) (o : Oracle) (pkg : Package) :
    (ensureTarballFS fs pkg).2 = ensureTarball (fs.toOracle o) pkg := by
  have h1 : (fs.toOracle o).stat = fs.stat := rfl
  have h2 : (fs.toOracle o).wget = fs.wget := rfl
  unfold ensureTarballFS ensureTarball
  rw [h1, h2]
  cases hst : fs.stat pkg.Tarball with
  | found => rfl
  | statError e => rfl
  | missing =>
    cases hw : fs.wget pkg.Tarball pkg.URL <;> rfl

/-- Claim C13.  For every package and every state of the local file system,
with a successful download creating the tarball: if the tarball already
exists, `ensureTarball` makes no download attempt and returns nil; and if a
first call downloads the tarball successfully, a second call for the same
tarball name makes no attempt and returns nil, so the two calls make exactly
one download attempt in total. -/
theorem ensureTarball_downloads_once (fs : LocalFS) (pkg pkg2 : Package) :
    (pkg.Tarball ∈ fs.files →
      downloads (ensureTarballFS fs pkg).2.1 = 0 ∧ (ensureTarballFS fs pkg).2.2 = none ∧
        (ensureTarballFS fs pkg).1.files = fs.files) ∧
    (pkg2.Tarball = pkg.Tarball → downloads (ensureTarballFS fs pkg).2.1 = 1 →
      (ensureTarballFS fs pkg).2.2 = none →
      downloads (ensureTarballFS (ensureTarballFS fs pkg).1 pkg2).2.1 = 0 ∧
        (ensureTarballFS (ensureTarballFS fs pkg).1 pkg2).2.2 = none ∧
        downloads ((ensureTarballFS fs pkg).2.1 ++
          (ensureTarballFS (ensureTarballFS fs pkg).1 pkg2).2.1) = 1) := by
  constructor
  · intro hmem
    unfold ensureTarballFS LocalFS.stat
    cases hsf : fs.statFails pkg.Tarball <;> simp [hmem, downloads]
  · intro hname hone hnil
    have key : downloads (ensureTarballFS (ensureTarballFS fs pkg).1 pkg2).2.1 = 0 ∧
        (ensureTarballFS (ensureTarballFS fs pkg).1 pkg2).2.2 = none := by
      unfold ensureTarballFS LocalFS.stat at hone hnil ⊢
      cases hsf : fs.statFails pkg.Tarball with
      | some e => simp [hsf, downloads] at hone
      | none =>
        by_cases hmem : pkg.Tarball ∈ fs.files
        · simp [hsf, hmem, downloads] at hone
        · cases hw : fs.wget pkg.Tarball pkg.URL with
          | some e => simp [hsf, hmem, hw] at hnil
          | none => simp [hsf, hmem, hw, hname, downloads]
    refine ⟨key.1, key.2, ?_⟩
    have happ : ∀ a b : List Event, downloads (a ++ b) = downloads a + downloads b := by
      intro a b
      simp [downloads, List.filter_append]
    rw [happ, hone, key.1]

/-- An empty file system with working downloads: the first call downloads
zlib, the second call does not. -/
theorem ensureTarball_downloads_once_witness :
    downloads (ensureTarballFS Sample.emptyFS Sample.zlib).2.1 = 1 ∧
    (ensureTarballFS Sample.emptyFS Sample.zlib).2.2 = none ∧
    downloads ((ensureTarballFS Sample.emptyFS Sample.zlib).2.1 ++
      (ensureTarballFS (ensureTarballFS Sample.emptyFS Sample.zlib).1 Sample.zlib).2.1) = 1 :=
  ⟨by decide, by decide,
    ((ensureTarball_downloads_once Sample.emptyFS Sample.zlib Sample.zlib).2 rfl (by decide)
      (by decide)).2.2⟩

/-- Claim C14, evaluated on the code.  When the status check does not fail for
another reason, a nil result of `ensureTarball` means the tarball exists
afterwards.  When the check fails for another reason (here a symbolic-link
loop at the tarball path), `ensureTarball` makes no download attempt and
returns nil although the tarball does not exist, and the loop body of `main`
goes on to call `scpFile`, which fails on opening the file. -/
theorem ensureTarball_nil_without_tarball :
    (∀ (fs : LocalFS) (pkg : Package), fs.statFails pkg.Tarball = none →
      (ensureTarballFS fs pkg).2.2 = none → pkg.Tarball ∈ (ensureTarballFS fs pkg).1.files) ∧
    Sample.loopFS.stat Sample.zlib.Tarball =
      StatResult.statError "stat zlib-1.3.1.tar.gz: too many levels of symbolic links" ∧
    (ensureTarballFS Sample.loopFS Sample.zlib).2.2 = none ∧
    downloads (ensureTarballFS Sample.loopFS Sample.zlib).2.1 = 0 ∧
    Sample.zlib.Tarball ∉ (ensureTarballFS Sample.loopFS Sample.zlib).1.files ∧
    MultiInstall.processPackage Sample.loopOracle "/tmp" "/usr/local" true "pw" Sample.zlib =
      ([Event.stat "zlib-1.3.1.tar.gz",
          Event.upload "zlib-1.3.1.tar.gz" "/tmp/zlib-1.3.1.tar.gz"],
        some ("installation failed for zlib-1.3.1.tar.gz: " ++
          "open zlib-1.3.1.tar.gz: too many levels of symbolic links")) := by
  refine ⟨?_, by decide, by decide, by decide, by decide, by decide⟩
  intro fs pkg hsf hnil
  unfold ensureTarballFS LocalFS.stat at hnil ⊢
  by_cases hmem : pkg.Tarball ∈ fs.files
  · simp [hsf, hmem]
  · cases hw : fs.wget pkg.Tarball pkg.URL with
    | some e => simp [hsf, hmem, hw] at hnil
    | none => simp [hsf, hmem, hw]

end Install

/-! ## Privilege elevation and quoting -/

namespace MultiInstall

open GoStd Install

/-- The text built by `chooseSudo`, character by character: with sudo on, the
text `echo '<p>'`, then ` | `, then `sudo -S <cmd>`; with sudo off, `cmd`.
This locates the parts by position in the text, not by the way a shell reads
the command line. -/
theorem chooseSudo_shape (cmd p p2 : String) :
    chooseSudo true cmd p = "echo '" ++ p ++ "' | sudo -S " ++ cmd ∧
    chooseSudo true cmd p = ("echo '" ++ p ++ "'") ++ " | " ++ ("sudo -S " ++ cmd) ∧
    (chooseSudo true cmd p).data.drop (("echo '" ++ p ++ "'") ++ " | ").data.length =
      ("sudo -S " ++ cmd).data ∧
    (chooseSudo true cmd p).data.drop (("echo '" ++ p ++ "'") ++ " | ").data.length =
      (chooseSudo true cmd p2).data.drop (("echo '" ++ p2 ++ "'") ++ " | ").data.length ∧
    chooseSudo false cmd p = cmd ∧
    chooseSudo false cmd p = chooseSudo false cmd p2 := by
  have h2 : ∀ q : String,
      chooseSudo true cmd q = ("echo '" ++ q ++ "'") ++ " | " ++ ("sudo -S " ++ cmd) := by
    intro q
    apply String.ext
    simp [chooseSudo, String.data_append]
  have h3 : ∀ q : String,
      (chooseSudo true cmd q).data.drop (("echo '" ++ q ++ "'") ++ " | ").data.length =
        ("sudo -S " ++ cmd).data := by
    intro q
    rw [h2 q]
    simp only [String.data_append]
    rw [List.drop_left]
  refine ⟨rfl, h2 p, h3 p, ?_, rfl, rfl⟩
  rw [h3 p, h3 p2]

end MultiInstall

namespace Shell

/-- Inside single quotes, a text without a single quote is taken literally up
to the closing quote. -/
theorem readWord_quoted (p : List Char) (acc rest : List Char) (hp : quote ∉ p) :
    readWord .quoted acc (p ++ quote :: rest) = readWord .plain (acc ++ p) rest := by
  induction p generalizing acc with
  | nil => simp [readWord]
  | cons c cs ih =>
    have hc : c ≠ quote := fun h => hp (h ▸ List.mem_cons_self c cs)
    have hcs : quote ∉ cs := fun h => hp (List.mem_cons_of_mem c h)
    simp [readWord, hc, ih (acc ++ [c]) hcs]

/-- For a password without a single quote, the argument of `echo` in the
command of `chooseSudo` reads back as the password, followed by the pipe into
`sudo -S`. -/
theorem echoArgument_chooseSudo_of_no_quote (cmd p : String) (hp : quote ∉ p.data) :
    echoArgument (MultiInstall.chooseSudo true cmd p) = some (p, " | sudo -S " ++ cmd) := by
  have hdata : (MultiInstall.chooseSudo true cmd p).data =
      "echo ".data ++ (quote :: (p.data ++ quote :: (" | sudo -S " ++ cmd).data)) := by
    simp [MultiInstall.chooseSudo, String.data_append, quote]
  have hpre : "echo ".data.isPrefixOf (MultiInstall.chooseSudo true cmd p).data = true := by
    rw [hdata]
    simp
  have hdrop : (MultiInstall.chooseSudo true cmd p).data.drop 5 =
      quote :: (p.data ++ quote :: (" | sudo -S " ++ cmd).data) := by
    rw [hdata]
    rfl
  have hrest : (" | sudo -S " ++ cmd).data = ' ' :: ("| sudo -S " ++ cmd).data := by
    simp [String.data_append]
  have hread : readWord .plain [] (quote :: (p.data ++ quote :: (" | sudo -S " ++ cmd).data)) =
      some (p.data, (" | sudo -S " ++ cmd).data) := by
    have h1 : readWord .plain [] (quote :: (p.data ++ quote :: (" | sudo -S " ++ cmd).data)) =
        readWord .quoted [] (p.data ++ quote :: (" | sudo -S " ++ cmd).data) := by
      simp [readWord]
    rw [h1, readWord_quoted p.data [] _ hp, hrest]
    have hq : (' ' : Char) ≠ quote := by decide
    have hb : (' ' : Char) ≠ backslash := by decide
    simp [readWord, hq, hb, isDelimiter]
  simp only [echoArgument, hpre, if_true, parseWord, hdrop, hread, Option.map_some']

/-- Claim C15, evaluated on the code.  For every command and password,
`chooseSudo(true, cmd, p)` is the text `echo '<p>' | sudo -S <cmd>` and
`chooseSudo(false, cmd, p)` is `cmd`.  With the password `pw` a shell reads the
command line as the pipeline of `echo pw` into `sudo -S make install`, and the
arguments of `sudo` are `-S make install`.  With the password
`x' | sudo -S echo 'SECRET` the command line is
`echo 'x' | sudo -S echo 'SECRET' | sudo -S make install`, a pipeline of three
commands: the argument of `echo` is `x`, what follows the first pipe is
`sudo -S echo SECRET` and not `sudo -S make install`, and the part `SECRET` of
the password is among the arguments of `sudo`.  The function `shellQuote` of
the capsule program, on the same password, keeps the whole password as the
argument of `echo`, with `sudo -S make install` after the pipe. -/
theorem chooseSudo_secret_among_sudo_arguments :
    (∀ cmd p : String,
      MultiInstall.chooseSudo true cmd p = "echo '" ++ p ++ "' | sudo -S " ++ cmd) ∧
    (∀ cmd p : String, MultiInstall.chooseSudo false cmd p = cmd) ∧
    pipeline (MultiInstall.chooseSudo true "make install" "pw") =
      some [["echo", "pw"], ["sudo", "-S", "make", "install"]] ∧
    (pipeline (MultiInstall.chooseSudo true "make install" "pw")).map sudoArguments =
      some ["-S", "make", "install"] ∧
    MultiInstall.chooseSudo true "make install" "x' | sudo -S echo 'SECRET" =
      "echo 'x' | sudo -S echo 'SECRET' | sudo -S make install" ∧
    echoArgument (MultiInstall.chooseSudo true "make install" "x' | sudo -S echo 'SECRET") =
      some ("x", " | sudo -S echo 'SECRET' | sudo -S make install") ∧
    pipeline (MultiInstall.chooseSudo true "make install" "x' | sudo -S echo 'SECRET") =
      some [["echo", "x"], ["sudo", "-S", "echo", "SECRET"],
        ["sudo", "-S", "make", "install"]] ∧
    (pipeline (MultiInstall.chooseSudo true "make install"
        "x' | sudo -S echo 'SECRET")).map sudoArguments =
      some ["-S", "echo", "SECRET", "-S", "make", "install"] ∧
    pipeline ("echo " ++ Capsule.shellQuote "x' | sudo -S echo 'SECRET" ++
        " | sudo -S make install") =
      some [["echo", "x' | sudo -S echo 'SECRET"], ["sudo", "-S", "make", "install"]] := by
  refine ⟨fun _ _ => rfl, fun _ _ => rfl, ?_, ?_, ?_, ?_, ?_, ?_, ?_⟩ <;> decide

/-- Claim C16, evaluated on the code.  `chooseSudo` puts the password between
single quotes without escaping it.  With the password `it's` the argument of
`echo` is not a well-formed word (the last quote is never closed); with
`a'b'c` it reads back as `abc`; with `x' ; id '` it reads back as `x` and the
rest of the command is a second command line, not the pipe into `sudo -S`.
The function `shellQuote` of the capsule program, on the same password, gives
a word that reads back as the password. -/
theorem chooseSudo_password_not_quoted :
    echoArgument (MultiInstall.chooseSudo true "make install" "it's") = none ∧
    echoArgument (MultiInstall.chooseSudo true "make install" "a'b'c") =
      some ("abc", " | sudo -S make install") ∧
    echoArgument (MultiInstall.chooseSudo true "make install" "x' ; id '") =
      some ("x", " ; id '' | sudo -S make install") ∧
    parseWord (Capsule.shellQuote "it's") = some ("it's", "") := by
  decide

/-- Claim C17, evaluated on the code.  With both library directories existing
and an empty `/etc/ld.so.conf.d/openssl.conf`, after the steps of
`installPackage` of `single_install.go` (sudo on, prefix `/usr/local`) have
run, the file lists `/usr/local/lib64` only: both registration steps redirect
with `>`, so the second replaces what the first wrote.  The steps of
`multi_install.go`, which redirect with `>` and then `>>`, leave both
directories in the file. -/
theorem single_install_registers_lib64_only :
    (SingleInstall.steps "/tmp" "/usr/local" true "pw" Sample.openssl).map redirection =
      [none, none, none, none,
        some ("/usr/local/lib", false, "/etc/ld.so.conf.d/openssl.conf"),
        some ("/usr/local/lib64", false, "/etc/ld.so.conf.d/openssl.conf"), none] ∧
    runRegistrations ["/usr/local/lib", "/usr/local/lib64"] "/etc/ld.so.conf.d/openssl.conf" []
        (SingleInstall.steps "/tmp" "/usr/local" true "pw" Sample.openssl) =
      ["/usr/local/lib64"] ∧
    "/usr/local/lib" ∉
      runRegistrations ["/usr/local/lib", "/usr/local/lib64"] "/etc/ld.so.conf.d/openssl.conf" []
        (SingleInstall.steps "/tmp" "/usr/local" true "pw" Sample.openssl) ∧
    runRegistrations ["/usr/local/lib", "/usr/local/lib64"] "/etc/ld.so.conf.d/openssl.conf" []
        (MultiInstall.steps "/tmp" "/usr/local" true "pw" Sample.openssl) =
      ["/usr/local/lib", "/usr/local/lib64"] := by
  decide

end Shell

/-! ## The checksum step of `ssh_capsule_load_and_run/main.go` -/

namespace Capsule

open GoStd

/-- In the payload loop of `main`, for every remote side and every payload
whose upload and install succeed, the checksum command is run once
and the self-test command is run right after it, whatever the checksum command
reported or whether it failed; the local SHA-256 is only logged, the remote
checksum is only logged (and only if the command succeeded), and the run is
fatal exactly when the self-test itself fails. -/
theorem processPayload_checksum_not_compared (r : Remote) (remoteTmp installDir : String)
    (useSudo : Bool) (password selfTest name : String) (data : List UInt8) (localSHA : String)
    (hup : (scpUpload (r.uploadSession (Join remoteTmp name)) data (Join remoteTmp name)
      0o755).err = none)
    (hins : (run r (installCmd useSudo password (Join remoteTmp name)
      (Join installDir name))).2 = none) :
    (processPayload r remoteTmp installDir useSudo password selfTest name data
        localSHA).requests =
      [ Event.upload name (Join remoteTmp name),
        Event.run (installCmd useSudo password (Join remoteTmp name) (Join installDir name)),
        Event.run (chkCmd (Join installDir name)),
        Event.run (testCmd (Join installDir name) selfTest) ] ∧
    ((processPayload r remoteTmp installDir useSudo password selfTest name data
        localSHA).fatal = none ↔
      (run r (testCmd (Join installDir name) selfTest)).2 = none) ∧
    (∀ e, (run r (testCmd (Join installDir name) selfTest)).2 = some e →
      (processPayload r remoteTmp installDir useSudo password selfTest name data
          localSHA).fatal =
        some ("self-test " ++ name ++ " failed: " ++ e ++ "\n" ++
          (run r (testCmd (Join installDir name) selfTest)).1)) ∧
    "local  checksum for " ++ name ++ ": " ++ localSHA ∈
      (processPayload r remoteTmp installDir useSudo password selfTest name data
        localSHA).logs := by
  refine ⟨?_, ?_, ?_, ?_⟩
  · simp [processPayload, hup, hins]
  · cases ht : (run r (testCmd (Join installDir name) selfTest)).2 <;>
      simp [processPayload, hup, hins, ht]
  · intro e ht
    simp [processPayload, hup, hins, ht]
  · simp [processPayload, hup, hins]

/-- Claim C18, evaluated on the code.  For an empty payload, whose SHA-256 is
`e3b0c442...`: on a remote side that reports a digest of zeros for the
installed file, and on one where no checksum tool is found, the self-test is
run all the same and the run is not fatal. -/
theorem processPayload_runs_selftest_on_wrong_checksum :
    Contains (Sample.wrongDigest.stdout (chkCmd "/usr/local/bin/empty")) Sample.sha256Empty =
      false ∧
    Event.run "'/usr/local/bin/empty' --version" ∈
      (processPayload Sample.wrongDigest "/tmp" "/usr/local/bin" true "pw" "--version" "empty" []
        Sample.sha256Empty).requests ∧
    (processPayload Sample.wrongDigest "/tmp" "/usr/local/bin" true "pw" "--version" "empty" []
      Sample.sha256Empty).fatal = none ∧
    (run Sample.noDigest (chkCmd "/usr/local/bin/empty")).2 =
      some "remote cmd error: Process exited with status 127" ∧
    Event.run "'/usr/local/bin/empty' --version" ∈
      (processPayload Sample.noDigest "/tmp" "/usr/local/bin" true "pw" "--version" "empty" []
        Sample.sha256Empty).requests ∧
    (processPayload Sample.noDigest "/tmp" "/usr/local/bin" true "pw" "--version" "empty" []
      Sample.sha256Empty).fatal = none := by
  decide

/-- The empty payload on a remote side that reports a digest of zeros: upload,
install, checksum and self-test are requested, in this order. -/
theorem processPayload_checksum_not_compared_witness :
    (run Sample.wrongDigest (installCmd true "pw" (Join "/tmp" "empty")
      (Join "/usr/local/bin" "empty"))).2 = none ∧
    (processPayload Sample.wrongDigest "/tmp" "/usr/local/bin" true "pw" "--version" "empty" []
        Sample.sha256Empty).requests =
      [ Event.upload "empty" "/tmp/empty",
        Event.run
          "echo 'pw' | sudo -S install -m 0755 -o root -g root '/tmp/empty' '/usr/local/bin/empty'",
        Event.run ("sha256sum '/usr/local/bin/empty' || shasum -a 256 '/usr/local/bin/empty'" ++
          " || openssl dgst -sha256 '/usr/local/bin/empty'"),
        Event.run "'/usr/local/bin/empty' --version" ] :=
  ⟨by decide,
    (processPayload_checksum_not_compared Sample.wrongDigest "/tmp" "/usr/local/bin" true "pw"
      "--version" "empty" [] Sample.sha256Empty (by decide) (by decide)).1.trans (by decide)⟩

end Capsule

/-! ## `RunRemoteCommand` and `parseUserHost` -/

namespace Lib

/-- Claim C19.  `RunRemoteCommand`, for every command and transport outcome: a
run that succeeds gives `(0, stdout, stderr, nil)`; a run that ends with an
exit error of status `s` gives `(s, stdout, stderr, nil)`; a session that
cannot be opened, or a run that fails in another way, gives `(-1, "", "", err)`
with a non-nil error.  Hence, as long as exit errors carry a non-zero status,
the returned exit code is 0 only on success. -/
theorem RunRemoteCommand_cases (t : Transport) (cmd : String)
    (hstatus : ∀ s, t.run cmd = RunOutcome.exitError s → s ≠ 0) :
    (t.newSession = none → t.run cmd = RunOutcome.success →
      RunRemoteCommand t cmd = (0, t.stdout cmd, t.stderr cmd, none)) ∧
    (∀ s, t.newSession = none → t.run cmd = RunOutcome.exitError s →
      RunRemoteCommand t cmd = (s, t.stdout cmd, t.stderr cmd, none)) ∧
    (∀ e, t.newSession = some e →
      RunRemoteCommand t cmd = (-1, "", "", some ("new session: " ++ e))) ∧
    (∀ e, t.newSession = none → t.run cmd = RunOutcome.otherError e →
      RunRemoteCommand t cmd = (-1, "", "", some ("run: " ++ e))) ∧
    ((RunRemoteCommand t cmd).1 = 0 →
      t.newSession = none ∧ t.run cmd = RunOutcome.success ∧
        (RunRemoteCommand t cmd).2.2.2 = none) := by
  refine ⟨?_, ?_, ?_, ?_, ?_⟩
  · intro hs hr
    simp [RunRemoteCommand, hs, hr]
  · intro s hs hr
    simp [RunRemoteCommand, hs, hr]
  · intro e hs
    simp [RunRemoteCommand, hs]
  · intro e hs hr
    simp [RunRemoteCommand, hs, hr]
  · intro h0
    cases hs : t.newSession with
    | some e => simp [RunRemoteCommand, hs] at h0
    | none =>
      cases hr : t.run cmd with
      | success => simp [RunRemoteCommand, hs, hr]
      | exitError s =>
        have hne := hstatus s hr
        simp [RunRemoteCommand, hs, hr] at h0
        exact absurd h0 hne
      | otherError e => simp [RunRemoteCommand, hs, hr] at h0

/-- A command that exits with status 3: the exit code is 3, the buffers are
returned and the error is nil. -/
theorem RunRemoteCommand_cases_witness :
    (∀ s, (fun _ : String => RunOutcome.exitError 3) "false" = RunOutcome.exitError s → s ≠ 0) ∧
    RunRemoteCommand
        { newSession := none, run := fun _ => RunOutcome.exitError 3,
          stdout := fun _ => "out", stderr := fun _ => "err" } "false" =
      (3, "out", "err", none) :=
  ⟨fun s h => by
      have h3 : s = 3 := (RunOutcome.exitError.inj h).symm
      omega,
    (RunRemoteCommand_cases
      { newSession := none, run := fun _ => RunOutcome.exitError 3,
        stdout := fun _ => "out", stderr := fun _ => "err" } "false"
      (fun s h => by
        have h3 : s = 3 := (RunOutcome.exitError.inj h).symm
        omega)).2.1 3 rfl rfl⟩

end Lib

namespace Demo

/-- The scan of `parseUserHost` splits at the first `@` of what is left. -/
theorem scanUserHost_of_mem (l pre : List Char) (h : '@' ∈ l) :
    ∃ u rest, scanUserHost pre l = some (pre ++ u, rest) ∧ l = u ++ '@' :: rest ∧ '@' ∉ u := by
  induction l generalizing pre with
  | nil => simp at h
  | cons c cs ih =>
    by_cases hc : c = '@'
    · exact ⟨[], cs, by simp [scanUserHost, hc], by simp [hc], by simp⟩
    · have hcs : '@' ∈ cs := by
        rcases List.mem_cons.1 h with h1 | h1
        · exact absurd h1.symm hc
        · exact h1
      obtain ⟨u, rest, h1, h2, h3⟩ := ih (pre ++ [c]) hcs
      refine ⟨c :: u, rest, ?_, ?_, ?_⟩
      · simp [scanUserHost, hc, h1]
      · simp [h2]
      · intro hm
        rcases List.mem_cons.1 hm with h4 | h4
        · exact hc h4.symm
        · exact h3 h4

/-- The scan of `parseUserHost` finds nothing in a text without `@`. -/
theorem scanUserHost_of_not_mem (l pre : List Char) (h : '@' ∉ l) :
    scanUserHost pre l = none := by
  induction l generalizing pre with
  | nil => rfl
  | cons c cs ih =>
    have hc : c ≠ '@' := fun hc => h (hc ▸ List.mem_cons_self c cs)
    have hcs : '@' ∉ cs := fun hm => h (List.mem_cons_of_mem c hm)
    simp [scanUserHost, hc, ih (pre ++ [c]) hcs]

/-- Claim C20.  `parseUserHost`, for every text `s` that contains `@`, returns
a pair `(user, host)` with `user + "@" + host = s` and no `@` in `user` (the
split is at the first `@`, so `host` may contain more of them); for every `s`
without `@` it returns no pair and ends in `log.Fatalf` with the message
`Invalid SSH_HOST format: <s>`. -/
theorem parseUserHost_spec (s : String) :
    ('@' ∈ s.data → ∃ user host, parseUserHost s = Except.ok (user, host) ∧
      user ++ "@" ++ host = s ∧ '@' ∉ user.data) ∧
    ('@' ∉ s.data → parseUserHost s = Except.error ("Invalid SSH_HOST format: " ++ s)) := by
  constructor
  · intro h
    obtain ⟨u, rest, h1, h2, h3⟩ := scanUserHost_of_mem s.data [] h
    refine ⟨String.mk u, String.mk rest, ?_, ?_, h3⟩
    · simp [parseUserHost, h1]
    · apply String.ext
      simp [String.data_append, h2]
  · intro h
    simp [parseUserHost, scanUserHost_of_not_mem s.data [] h]

/-- The text `a@b@c` splits into `a` and `b@c`; the text `nohost` is fatal. -/
theorem parseUserHost_spec_witness :
    '@' ∈ "a@b@c".data ∧ parseUserHost "a@b@c" = Except.ok ("a", "b@c") ∧
    '@' ∉ "nohost".data ∧
    parseUserHost "nohost" = Except.error "Invalid SSH_HOST format: nohost" :=
  ⟨by decide, rfl, by decide, ((parseUserHost_spec "nohost").2 (by decide)).trans rfl⟩

end Demo

/-! ## The bytes of the upload in `multi_install.go` -/

namespace Install

open GoStd

/-- A write that the channel takes in full appends all its bytes. -/
theorem Channel.write_taken_in_full (ch : Channel) (k : Nat) (buf p : List UInt8)
    (h : p.length ≤ ch.accept k p.length) : ch.write k buf p = buf ++ p := by
  simp [Channel.write, List.take_of_length_le h]

/-- Claim C21.  In `scpFile` of `multi_install.go`, once session, local file
and input channel are there, and if every write is taken in full: for every
local file and every `remotePath`, the bytes the input channel receives are
the header `C0644 `, the decimal size of the file, a space, the base name of
`localPath` and a newline, then the bytes of the file, then one NUL byte.  The
mode field is the constant `0644`, and the bytes do not depend on
`remotePath`. -/
theorem scpFile_written (o : Oracle) (ch : Channel) (localPath remotePath : String)
    (hs : o.newSession ("scp -tr " ++ Dir remotePath) = none)
    (ho : o.openLocal localPath = none) (hp : ch.stdinPipe = none)
    (hw : ∀ k n, n ≤ ch.accept k n) :
    (scpFileTransfer o ch localPath remotePath).written =
      Capsule.bytesOf ("C0644 " ++ Nat.repr (ch.content localPath).length ++ " " ++
          Base localPath ++ "\n") ++
        ch.content localPath ++ [0] ∧
    (scpFileTransfer o ch localPath remotePath).written.length =
      (Capsule.bytesOf ("C0644 " ++ Nat.repr (ch.content localPath).length ++ " " ++
          Base localPath ++ "\n")).length + (ch.content localPath).length + 1 ∧
    (∀ remotePath2, o.newSession ("scp -tr " ++ Dir remotePath2) = none →
      (scpFileTransfer o ch localPath remotePath2).written =
        (scpFileTransfer o ch localPath remotePath).written) := by
  have hprod : producer ch localPath =
      Capsule.bytesOf ("C0644 " ++ Nat.repr (ch.content localPath).length ++ " " ++
          Base localPath ++ "\n") ++
        ch.content localPath ++ [0] := by
    simp only [producer, scpFileHeader, Channel.write_taken_in_full ch _ _ _ (hw _ _),
      List.nil_append]
  have hwr : (scpFileTransfer o ch localPath remotePath).written = producer ch localPath := by
    simp [scpFileTransfer, hs, ho, hp]
  refine ⟨?_, ?_, ?_⟩
  · rw [hwr, hprod]
  · rw [hwr, hprod]
    simp only [List.length_append, List.length_singleton]
  · intro remotePath2 hs2
    rw [hwr]
    simp [scpFileTransfer, hs2, ho, hp]

/-- A three-byte tarball `zlib-1.3.1.tar.gz` uploaded to `/tmp`: the channel
receives `C0644 3 zlib-1.3.1.tar.gz`, a newline, the three bytes and a NUL. -/
theorem scpFile_written_witness :
    (∀ k n, n ≤ Sample.goodChannel.accept k n) ∧
    (scpFileTransfer Sample.allOk Sample.goodChannel "zlib-1.3.1.tar.gz"
      "/tmp/zlib-1.3.1.tar.gz").written =
      [67, 48, 54, 52, 52, 32, 51, 32, 122, 108, 105, 98, 45, 49, 46, 51, 46, 49, 46, 116, 97,
        114, 46, 103, 122, 10, 1, 2, 3, 0] :=
  ⟨fun _ n => Nat.le_refl n,
    (scpFile_written Sample.allOk Sample.goodChannel "zlib-1.3.1.tar.gz"
      "/tmp/zlib-1.3.1.tar.gz" rfl rfl rfl (fun _ n => Nat.le_refl n)).1.trans (by decide)⟩

/-- The step loop returns nil exactly when every command succeeds. -/
theorem runSteps_eq_none_iff (o : Oracle) (cs : List String) :
    (runSteps o cs).2 = none ↔ ∀ c ∈ cs, runRemote o c = none := by
  induction cs with
  | nil => simp [runSteps]
  | cons c cs ih =>
    cases hc : runRemote o c with
    | some e =>
      simp [runSteps, hc]
    | none =>
      simp [runSteps, hc, ih]

end Install

/-! ## When `installPackage` of `single_install.go` returns nil -/

namespace SingleInstall

open GoStd Install

/-- The test loop stops at the first approach that succeeds. -/
theorem runTests_of_first_success (o : Oracle) (pre post : List String) (c : String)
    (last : Option String) (hpre : ∀ x ∈ pre, runRemote o x ≠ none)
    (hc : runRemote o c = none) :
    (runTests o (pre ++ c :: post) last).1 = (pre ++ [c]).map Event.run ∧
      (runTests o (pre ++ c :: post) last).2.1 = true := by
  induction pre generalizing last with
  | nil => simp [runTests, hc]
  | cons x pre ih =>
    obtain ⟨e, hx⟩ := Option.ne_none_iff_exists'.1 (hpre x (List.mem_cons_self x pre))
    have ht := ih (some e) (fun y hy => hpre y (List.mem_cons_of_mem x hy))
    simp [runTests, hx, ht.1, ht.2]

/-- When every approach fails, the test loop runs all of them and reports no
success. -/
theorem runTests_of_all_fail (o : Oracle) (cs : List String) (last : Option String)
    (h : ∀ c ∈ cs, runRemote o c ≠ none) :
    (runTests o cs last).1 = cs.map Event.run ∧ (runTests o cs last).2.1 = false := by
  induction cs generalizing last with
  | nil => simp [runTests]
  | cons c cs ih =>
    obtain ⟨e, hc⟩ := Option.ne_none_iff_exists'.1 (h c (List.mem_cons_self c cs))
    have ht := ih (some e) (fun y hy => h y (List.mem_cons_of_mem c hy))
    simp [runTests, hc, ht.1, ht.2]

/-- A list with a succeeding command splits at the first one. -/
theorem exists_first_success (o : Oracle) (cs : List String)
    (h : ∃ c ∈ cs, runRemote o c = none) :
    ∃ pre c post, cs = pre ++ c :: post ∧ (∀ x ∈ pre, runRemote o x ≠ none) ∧
      runRemote o c = none := by
  induction cs with
  | nil => simp at h
  | cons d cs ih =>
    by_cases hd : runRemote o d = none
    · exact ⟨[], d, cs, rfl, by simp, hd⟩
    · have h2 : ∃ c ∈ cs, runRemote o c = none := by
        obtain ⟨c, hmem, hc⟩ := h
        rcases List.mem_cons.1 hmem with h1 | h1
        · exact absurd (h1 ▸ hc) hd
        · exact ⟨c, h1, hc⟩
      obtain ⟨pre, c, post, h3, h4, h5⟩ := ih h2
      refine ⟨d :: pre, c, post, by simp [h3], ?_, h5⟩
      intro x hx
      rcases List.mem_cons.1 hx with h6 | h6
      · exact h6 ▸ hd
      · exact h4 x h6

/-- Claim C22.  `installPackage` of `single_install.go` returns nil if and
only if the upload succeeds, every step succeeds, and at least one of the four
test approaches succeeds; and when it returns nil, the requests are the upload,
the steps, and the test approaches up to and including the first one that
succeeds, with no diagnostic command after it. -/
theorem installPackage_nil_iff (o : Oracle) (remoteTmp installDir password : String)
    (useSudo : Bool) (pkg : Package) :
    ((installPackage o remoteTmp pkg useSudo password installDir).2 = none ↔
      scpFile o pkg.Tarball (Join remoteTmp (Base pkg.Tarball)) = none ∧
        (∀ c ∈ steps remoteTmp installDir useSudo password pkg, runRemote o c = none) ∧
        ∃ c ∈ testApproaches installDir, runRemote o c = none) ∧
    ((installPackage o remoteTmp pkg useSudo password installDir).2 = none →
      ∃ pre c post, testApproaches installDir = pre ++ c :: post ∧
        (∀ x ∈ pre, runRemote o x ≠ none) ∧ runRemote o c = none ∧
        (installPackage o remoteTmp pkg useSudo password installDir).1 =
          Event.upload pkg.Tarball (Join remoteTmp (Base pkg.Tarball)) ::
            ((steps remoteTmp installDir useSudo password pkg).map Event.run ++
              (pre ++ [c]).map Event.run)) := by
  cases hup : scpFile o pkg.Tarball (Join remoteTmp (Base pkg.Tarball)) with
  | some e => simp [installPackage, hup]
  | none =>
    cases hst : (runSteps o (steps remoteTmp installDir useSudo password pkg)).2 with
    | some e =>
      have hno : ¬ ∀ c ∈ steps remoteTmp installDir useSudo password pkg,
          runRemote o c = none := by
        intro hall
        rw [(runSteps_eq_none_iff o _).2 hall] at hst
        exact Option.noConfusion hst
      simp [installPackage, hup, hst, hno]
    | none =>
      have hall := (runSteps_eq_none_iff o _).1 hst
      have hrun := runSteps_of_all_ok o _ hall
      by_cases hex : ∃ c ∈ testApproaches installDir, runRemote o c = none
      · obtain ⟨pre, c, post, hsplit, hpre, hc⟩ := exists_first_success o _ hex
        have ht := runTests_of_first_success o pre post c none hpre hc
        rw [← hsplit] at ht
        have hi : installPackage o remoteTmp pkg useSudo password installDir =
            (Event.upload pkg.Tarball (Join remoteTmp (Base pkg.Tarball)) ::
                ((steps remoteTmp installDir useSudo password pkg).map Event.run ++
                  (pre ++ [c]).map Event.run), none) := by
          simp only [installPackage, hup, hrun, ht.1, ht.2, if_true]
        refine ⟨?_, ?_⟩
        · rw [hi]
          exact ⟨fun _ => ⟨rfl, hall, hex⟩, fun _ => rfl⟩
        · intro _
          exact ⟨pre, c, post, hsplit, hpre, hc, by rw [hi]⟩
      · have hfail : ∀ c ∈ testApproaches installDir, runRemote o c ≠ none := by
          intro c hc hnone
          exact hex ⟨c, hc, hnone⟩
        have ht := runTests_of_all_fail o (testApproaches installDir) none hfail
        have hi : (installPackage o remoteTmp pkg useSudo password installDir).2 ≠ none := by
          simp [installPackage, hup, hrun, ht.2]
        refine ⟨?_, ?_⟩
        · constructor
          · intro h
            exact absurd h hi
          · intro h
            exact absurd h.2.2 hex
        · intro h
          exact absurd h hi

/-- The OpenSSL package with the first two approaches failing and the third
succeeding: `installPackage` returns nil. -/
theorem installPackage_nil_iff_witness :
    (∃ c ∈ testApproaches "/usr/local", runRemote Sample.thirdApproachWorks c = none) ∧
    (installPackage Sample.thirdApproachWorks "/tmp" Sample.openssl true "pw"
      "/usr/local").2 = none :=
  ⟨⟨"/usr/local/bin/openssl version", by decide, by decide⟩,
    (installPackage_nil_iff Sample.thirdApproachWorks "/tmp" "/usr/local" "pw" true
      Sample.openssl).1.2
      ⟨by decide, by decide, ⟨"/usr/local/bin/openssl version", by decide, by decide⟩⟩⟩

end SingleInstall

/-! ## `shellQuote` reads back -/

namespace Capsule

open GoStd

/-- The characters of `shellQuote s`: a quote, the characters of `s` with every
quote replaced by the four characters quote, backslash, quote, quote, and a
closing quote; the empty text included. -/
theorem shellQuote_data (s : String) :
    (shellQuote s).data =
      Shell.quote ::
        (s.data.flatMap (fun c => if c = Shell.quote then "'\\''".data else [c]) ++
          [Shell.quote]) := by
  by_cases h : s = ""
  · subst h
    decide
  · simp [shellQuote, h, ReplaceAllChar, String.data_append, Shell.quote]

/-- Inside single quotes, a quote closes the quoting. -/
theorem readWord_quoted_quote (acc cs : List Char) :
    Shell.readWord .quoted acc (Shell.quote :: cs) = Shell.readWord .plain acc cs := by
  simp [Shell.readWord]

/-- Inside single quotes, any other character is literal. -/
theorem readWord_quoted_other (acc cs : List Char) (c : Char) (hc : c ≠ Shell.quote) :
    Shell.readWord .quoted acc (c :: cs) = Shell.readWord .quoted (acc ++ [c]) cs := by
  simp [Shell.readWord, hc]

/-- Outside quotes, a quote opens the quoting. -/
theorem readWord_plain_quote (acc cs : List Char) :
    Shell.readWord .plain acc (Shell.quote :: cs) = Shell.readWord .quoted acc cs := by
  simp [Shell.readWord]

/-- Outside quotes, a backslash makes the next character literal. -/
theorem readWord_plain_backslash (acc cs : List Char) (c : Char) :
    Shell.readWord .plain acc (Shell.backslash :: c :: cs) =
      Shell.readWord .plain (acc ++ [c]) cs := by
  have hbq : Shell.backslash ≠ Shell.quote := by decide
  simp [Shell.readWord, hbq]

/-- The replacement of a text that starts with a quote starts with quote,
backslash, quote, quote. -/
theorem replaced_quote_cons (cs : List Char) :
    (Shell.quote :: cs).flatMap (fun c => if c = Shell.quote then "'\\''".data else [c]) =
      Shell.quote :: Shell.backslash :: Shell.quote :: Shell.quote ::
        cs.flatMap (fun c => if c = Shell.quote then "'\\''".data else [c]) := by
  rw [List.flatMap_cons, if_pos rfl]
  rfl

/-- The replacement of a text that starts with another character starts with
that character. -/
theorem replaced_other_cons (c : Char) (cs : List Char) (hc : c ≠ Shell.quote) :
    (c :: cs).flatMap (fun c => if c = Shell.quote then "'\\''".data else [c]) =
      c :: cs.flatMap (fun c => if c = Shell.quote then "'\\''".data else [c]) := by
  rw [List.flatMap_cons, if_neg hc]
  rfl

/-- Inside single quotes, the replaced text reads back as the original text up
to the closing quote. -/
theorem readWord_replaced (cs acc rest : List Char) :
    Shell.readWord .quoted acc
        (cs.flatMap (fun c => if c = Shell.quote then "'\\''".data else [c]) ++
          Shell.quote :: rest) =
      Shell.readWord .plain (acc ++ cs) rest := by
  induction cs generalizing acc with
  | nil =>
    rw [List.flatMap_nil, List.nil_append, readWord_quoted_quote, List.append_nil]
  | cons c cs ih =>
    by_cases hc : c = Shell.quote
    · subst hc
      rw [replaced_quote_cons, List.cons_append, List.cons_append, List.cons_append,
        List.cons_append, readWord_quoted_quote, readWord_plain_backslash,
        readWord_plain_quote, ih (acc ++ [Shell.quote]), List.append_assoc,
        List.singleton_append]
    · rw [replaced_other_cons c cs hc, List.cons_append, readWord_quoted_other acc _ c hc,
        ih (acc ++ [c]), List.append_assoc, List.singleton_append]

/-- The replaced text is longer than the original text by three characters,
and by three bytes, for every quote. -/
theorem replaced_length (cs : List Char) :
    (cs.flatMap (fun c => if c = Shell.quote then "'\\''".data else [c])).length =
        cs.length + 3 * cs.count Shell.quote ∧
      ((cs.flatMap (fun c => if c = Shell.quote then "'\\''".data else [c])).flatMap
          String.utf8EncodeChar).length =
        (cs.flatMap String.utf8EncodeChar).length + 3 * cs.count Shell.quote := by
  induction cs with
  | nil => exact ⟨rfl, rfl⟩
  | cons c cs ih =>
    by_cases hc : c = Shell.quote
    · subst hc
      have hq : (String.utf8EncodeChar Shell.quote).length = 1 := by decide
      have hb : (String.utf8EncodeChar Shell.backslash).length = 1 := by decide
      rw [replaced_quote_cons]
      constructor
      · simp only [List.length_cons, List.count_cons_self, ih.1]
        omega
      · simp only [List.flatMap_cons, List.length_append, List.count_cons_self, ih.2, hq, hb]
        omega
    · have hne : (c == Shell.quote) = false := by simpa using hc
      rw [replaced_other_cons c cs hc]
      constructor
      · simp only [List.length_cons, List.count_cons, hne, ih.1]
        simp
        omega
      · simp only [List.flatMap_cons, List.length_append, List.count_cons, hne, ih.2]
        simp
        omega

/-- Claim C23.  For every text `s`, `shellQuote s` is one well-formed shell
word that reads back as `s` under the POSIX rules for single quotes and
backslash, with nothing left over; `shellQuote ""` is `''`, which is also what
the general formula (quote, `s` with every quote replaced by `'\''`, quote)
gives, so the formula holds for every `s`; and the length of the result, in
characters and in bytes, is the length of `s` plus 2 plus 3 for every single
quote of `s`. -/
theorem shellQuote_roundtrip (s : String) :
    Shell.parseWord (shellQuote s) = some (s, "") ∧
    shellQuote "" = "''" ∧
    "'" ++ ReplaceAllChar "" (Char.ofNat 39) "'\\''" ++ "'" = "''" ∧
    shellQuote s = "'" ++ ReplaceAllChar s (Char.ofNat 39) "'\\''" ++ "'" ∧
    (shellQuote s).data.length = s.data.length + 2 + 3 * s.data.count (Char.ofNat 39) ∧
    (bytesOf (shellQuote s)).length =
      (bytesOf s).length + 2 + 3 * s.data.count (Char.ofNat 39) := by
  have hq : Shell.quote = Char.ofNat 39 := rfl
  refine ⟨?_, by decide, by decide, ?_, ?_, ?_⟩
  · have h := readWord_replaced s.data [] []
    simp only [Shell.parseWord, shellQuote_data, Shell.readWord, if_true]
    rw [h]
    simp [Shell.readWord]
  · by_cases h : s = ""
    · subst h
      decide
    · simp [shellQuote, h]
  · rw [shellQuote_data, ← hq]
    simp only [List.length_cons, List.length_append, List.length_nil, (replaced_length s.data).1]
    omega
  · have h1 : (String.utf8EncodeChar Shell.quote).length = 1 := by decide
    rw [← hq]
    simp only [bytesOf, shellQuote_data, List.flatMap_cons, List.flatMap_append,
      List.flatMap_nil, List.length_append, List.append_nil, (replaced_length s.data).2, h1]
    omega

end Capsule

/-! ## The report of `CollectBasicStats` -/

namespace Lib

open GoStd

/-- A non-nil error of `RunRemoteCommand` comes with an empty stderr. -/
theorem RunRemoteCommand_stderr_of_error (t : Transport) (cmd : String)
    (h : (RunRemoteCommand t cmd).2.2.2 ≠ none) : (RunRemoteCommand t cmd).2.2.1 = "" := by
  unfold RunRemoteCommand at h ⊢
  cases hs : t.newSession with
  | some e => simp
  | none =>
    cases hr : t.run cmd with
    | success => simp [hs, hr] at h
    | exitError s => simp [hs, hr] at h
    | otherError e => simp

/-- One round of the loop of `CollectBasicStats` appends the title line and
the trimmed stdout, and nothing of stderr. -/
theorem reportPart_eq (t : Transport) (title cmd : String) :
    reportPart t title cmd =
      "\n# " ++ title ++ " (exit " ++ fmtInt (RunRemoteCommand t cmd).1 ++ ")\n" ++
        (TrimSpace (RunRemoteCommand t cmd).2.1 ++ "\n") := by
  have hbranch : ¬ ((RunRemoteCommand t cmd).2.2.2 ≠ none ∧
      (RunRemoteCommand t cmd).2.2.1 ≠ "") :=
    fun h => h.2 (RunRemoteCommand_stderr_of_error t cmd h.1)
  simp only [reportPart, hbranch, if_false, String.append_empty]

/-- The result of `RunRemoteCommand` does not depend on the stderr buffer as
far as exit code, stdout and error go. -/
theorem RunRemoteCommand_without_stderr (t t2 : Transport) (cmd : String)
    (hs : t2.newSession = t.newSession) (hr : t2.run = t.run) (ho : t2.stdout = t.stdout) :
    (RunRemoteCommand t2 cmd).1 = (RunRemoteCommand t cmd).1 ∧
      (RunRemoteCommand t2 cmd).2.1 = (RunRemoteCommand t cmd).2.1 := by
  unfold RunRemoteCommand
  rw [hs, hr, ho]
  cases t.newSession with
  | some e => simp
  | none => cases t.run cmd <;> simp

/-- Claim C24.  `CollectBasicStats`, for every transport, returns a nil error
and a report made of the line `=== remote system report ===` followed by
exactly four sections in the declared order (`uname -a`, `uptime`, `cpu/mem`,
`disk`), each being the title line with the exit code and the trimmed stdout.
The condition of the branch that appends stderr never holds, because
`RunRemoteCommand` returns an empty stderr with every non-nil error, so the
report is the same whatever the remote commands write to stderr. -/
theorem CollectBasicStats_report (env : String → Transport) :
    (CollectBasicStats env).2 = none ∧
    (CollectBasicStats env).1 =
      "=== remote system report ===\n" ++
        ("\n# " ++ "uname -a" ++ " (exit " ++
          fmtInt (RunRemoteCommand (env "uname -a") "uname -a").1 ++ ")\n" ++
          (TrimSpace (RunRemoteCommand (env "uname -a") "uname -a").2.1 ++ "\n")) ++
        ("\n# " ++ "uptime" ++ " (exit " ++
          fmtInt (RunRemoteCommand (env "uptime") "uptime").1 ++ ")\n" ++
          (TrimSpace (RunRemoteCommand (env "uptime") "uptime").2.1 ++ "\n")) ++
        ("\n# " ++ "cpu/mem" ++ " (exit " ++
          fmtInt (RunRemoteCommand
            (env "cat /proc/meminfo 2>/dev/null | head -n 5 || vm_stat")
            "cat /proc/meminfo 2>/dev/null | head -n 5 || vm_stat").1 ++ ")\n" ++
          (TrimSpace (RunRemoteCommand
            (env "cat /proc/meminfo 2>/dev/null | head -n 5 || vm_stat")
            "cat /proc/meminfo 2>/dev/null | head -n 5 || vm_stat").2.1 ++ "\n")) ++
        ("\n# " ++ "disk" ++ " (exit " ++
          fmtInt (RunRemoteCommand (env "df -h | sed -n '1p;/^[^F]/p'")
            "df -h | sed -n '1p;/^[^F]/p'").1 ++ ")\n" ++
          (TrimSpace (RunRemoteCommand (env "df -h | sed -n '1p;/^[^F]/p'")
            "df -h | sed -n '1p;/^[^F]/p'").2.1 ++ "\n")) ∧
    "=== remote system report ===\n".data <+: (CollectBasicStats env).1.data ∧
    (∀ (t : Transport) (cmd : String),
      ¬ ((RunRemoteCommand t cmd).2.2.2 ≠ none ∧ (RunRemoteCommand t cmd).2.2.1 ≠ "")) ∧
    (∀ env2 : String → Transport,
      (∀ c, (env2 c).newSession = (env c).newSession ∧ (env2 c).run = (env c).run ∧
        (env2 c).stdout = (env c).stdout) →
      CollectBasicStats env2 = CollectBasicStats env) := by
  have hrep : ∀ e : String → Transport, (CollectBasicStats e).1 =
      "=== remote system report ===\n" ++
        reportPart (e "uname -a") "uname -a" "uname -a" ++
        reportPart (e "uptime") "uptime" "uptime" ++
        reportPart (e "cat /proc/meminfo 2>/dev/null | head -n 5 || vm_stat") "cpu/mem"
          "cat /proc/meminfo 2>/dev/null | head -n 5 || vm_stat" ++
        reportPart (e "df -h | sed -n '1p;/^[^F]/p'") "disk" "df -h | sed -n '1p;/^[^F]/p'" := by
    intro e
    rfl
  refine ⟨rfl, ?_, ?_, ?_, ?_⟩
  · rw [hrep env]
    simp only [reportPart_eq]
  · rw [hrep env]
    simp only [String.data_append, List.append_assoc]
    exact List.prefix_append _ _
  · intro t cmd h
    exact h.2 (RunRemoteCommand_stderr_of_error t cmd h.1)
  · intro env2 h
    have hpart : ∀ title cmd, reportPart (env2 cmd) title cmd = reportPart (env cmd) title cmd := by
      intro title cmd
      obtain ⟨h1, h2, h3⟩ := h cmd
      have hw := RunRemoteCommand_without_stderr (env cmd) (env2 cmd) cmd h1 h2 h3
      rw [reportPart_eq, reportPart_eq, hw.1, hw.2]
    apply Prod.ext
    · rw [hrep env2, hrep env]
      simp only [hpart]
    · rfl

end Lib
